import Mathlib

/-!
Verification of the dialogue-research conversational bridge.

This file gives a shallow embedding, in Lean 4, of the core subsystems of the
repository (completion gateway with retry/backoff, rate limiter, daemon polling
loop, command router, model catalog) and proves properties about them.

Conventions of the embedding:
- JavaScript numbers used as integers are modelled as `Nat`/`Int`; wall-clock
  time (`Date.now()`) is a `Nat` with the start of `generateReply` as origin 0.
- Fallible code returns `Except`/`Option`.
- Network effects are modelled by passing the endpoint behaviour as an explicit
  function from attempt number to result; side effects (usage-log writes,
  backoff sleeps, telegram sends, store writes) are recorded in explicit
  event / action traces.
- JavaScript string indexing counts UTF-16 code units while Lean `String.length`
  counts characters; this diverges only on astral-plane characters, which none
  of the verified properties depend on.
- `estimatedCostUsd` (floating point) and ISO timestamp strings of usage
  records are not modelled: no claim depends on them.
-/

namespace Spec2Proof

/-! ## String helpers (JavaScript `String.prototype.includes`, `toLowerCase`) -/

/-- Boolean test that the first char list is a prefix of the second. -/
def charsHavePre : List Char → List Char → Bool
  | [], _ => true
  | _ :: _, [] => false
  | a :: as, b :: bs => a == b && charsHavePre as bs

/-- Boolean substring containment on char lists (JS `includes`). -/
def charsContain (needle : List Char) : List Char → Bool
  | [] => needle.isEmpty
  | b :: bs => charsHavePre needle (b :: bs) || charsContain needle bs

/-- `hay.includes(needle)` on strings. -/
def containsSub (hay needle : String) : Bool :=
  charsContain needle.data hay.data

/-- ASCII lower-casing of a char list (JS `toLowerCase`; the needles and the
relevant parts of the bodies are ASCII, CJK characters are fixed points of
both). -/
def lowerChars (l : List Char) : List Char :=
  l.map Char.toLower

/-- Case-insensitive substring containment (JS `/i` regexes, `toLowerCase()`
followed by `includes`). -/
def containsSubCI (hay needle : String) : Bool :=
  charsContain (lowerChars needle.data) (lowerChars hay.data)

/-- JS `String.prototype.trim` (drop leading and trailing whitespace),
implemented by structural recursion on the character list so that concrete
inputs evaluate inside the kernel (core `String.trim` is defined by
well-founded recursion on byte positions). -/
def trimStr (s : String) : String :=
  String.mk (((s.data.dropWhile Char.isWhitespace).reverse.dropWhile
    Char.isWhitespace).reverse)

/-- JS `String.prototype.slice(0, n)`, implemented on the character list
(see `trimStr` for why). -/
def takeStr (s : String) (n : Nat) : String :=
  String.mk (s.data.take n)

/-- `String.split` on a character predicate, implemented on the character
list (see `trimStr` for why). -/
def splitChars (p : Char → Bool) : List Char → List (List Char)
  | [] => [[]]
  | c :: cs =>
    if p c then [] :: splitChars p cs
    else
      match splitChars p cs with
      | [] => [[c]]
      | t :: ts => (c :: t) :: ts

/-! ## Completion gateway: `CopilotClient` (src/unnamed/part_008) -/

/-- The provenance of the configured credential
(`copilot_api_key | github_token | none` in the source). -/
inductive ApiKeySource where
  | copilot_api_key
  | github_token
  | no_key
deriving DecidableEq, Repr

/-- The configuration the `CopilotClient` constructor derives from the
environment.  `asNumber` bounds (e.g. `COPILOT_MAX_RETRIES ∈ [1,8]`,
`COPILOT_MAX_TOTAL_WAIT_MS ∈ [5000,300000]`) are stated separately as
`CopilotClient.WellFormed` where a proof needs them. -/
structure CopilotClient where
  apiKey : String
  apiKeySource : ApiKeySource
  maxRetries : Nat
  retryBaseMs : Nat
  timeoutMs : Nat
  maxTotalWaitMs : Nat
  defaultModel : String
deriving DecidableEq, Repr

/-- The numeric bounds enforced by `asNumber` in the constructor. -/
def CopilotClient.WellFormed (c : CopilotClient) : Prop :=
  1 ≤ c.maxRetries ∧ c.maxRetries ≤ 8 ∧
  100 ≤ c.retryBaseMs ∧ c.retryBaseMs ≤ 10000 ∧
  1000 ≤ c.timeoutMs ∧ c.timeoutMs ≤ 180000 ∧
  5000 ≤ c.maxTotalWaitMs ∧ c.maxTotalWaitMs ≤ 300000

/-- `isEnabled()`: true only when a credential is configured. -/
def CopilotClient.isEnabled (c : CopilotClient) : Bool :=
  c.apiKey ≠ ""

/-- The fields of a chat-completions response the client reads:
`id`, `usage.prompt_tokens`, `usage.completion_tokens`, `usage.total_tokens`
and `choices[0]?.message?.content`. -/
structure ChatCompletionsResponse where
  id : Option String
  prompt_tokens : Option Nat
  completion_tokens : Option Nat
  total_tokens : Option Nat
  content : Option String
deriving DecidableEq, Repr

/-- Endpoint behaviour of one attempt: the fetch throws (network error /
abort), returns a non-ok response with a status and body text, or returns an
ok response whose JSON was parsed. -/
inductive EndpointResult where
  | thrown (msg : String)
  | httpError (status : Nat) (body : String)
  | ok (json : ChatCompletionsResponse)
deriving DecidableEq, Repr

/-- Parameters of `generateReply`. -/
structure GenerateReplyParams where
  modelId : String
  topic : String
  agent : String
  userInput : String
  contextSummary : String
  extraContext : Option String
deriving DecidableEq, Repr

/-- `estimateTokens`: 0 for blank text, else `max 1 ⌈length/4⌉`. -/
def estimateTokens (text : String) : Nat :=
  let trimmed := trimStr text
  if trimmed = "" then 0 else max 1 ((trimmed.length + 3) / 4)

/-- The system instruction built by `generateReply`. -/
def systemPrompt (p : GenerateReplyParams) : String :=
  String.intercalate "\n"
    ["你是 Telegram Copilot 助手。",
     "当前 topic: " ++ p.topic,
     "当前 agent: " ++ p.agent,
     "回答要求：",
     "- 优先基于提供的上下文与证据回答；",
     "- 如果证据不足，明确说明不确定；",
     "- 输出简洁、直接，适合 Telegram 阅读。"]

/-- The user turn built by `generateReply` (empty pieces filtered out as by
`filter(Boolean)`). -/
def userPrompt (p : GenerateReplyParams) : String :=
  String.intercalate "\n\n"
    (List.filter (fun s => s ≠ "")
      ["会话摘要:\n" ++ (if p.contextSummary = "" then "无" else p.contextSummary),
       (match p.extraContext with
        | some ec => if ec = "" then "" else "补充上下文:\n" ++ ec
        | none => ""),
       "用户输入:\n" ++ p.userInput])

/-- The prompt string passed to `resolveUsage`: `system + "\n\n" + user`. -/
def fullPrompt (p : GenerateReplyParams) : String :=
  systemPrompt p ++ "\n\n" ++ userPrompt p

/-- `params.modelId || this.config.defaultModel` (empty string is falsy). -/
def resolvedModelId (c : CopilotClient) (p : GenerateReplyParams) : String :=
  if p.modelId = "" then c.defaultModel else p.modelId

/-- `asNonRetryableAuthError`: a 401/403 whose lower-cased body mentions both
"models" and "permission" is turned into the fatal missing-models-permission
error, with a hint depending on the credential source. -/
def asNonRetryableAuthError (src : ApiKeySource) (status : Nat) (body : String) :
    Option String :=
  if status ≠ 401 ∧ status ≠ 403 then none
  else
    let lowered := String.mk (lowerChars body.data)
    if containsSub lowered "models" && containsSub lowered "permission" then
      let tokenHint :=
        match src with
        | .github_token => "当前使用的是 GITHUB_TOKEN，请为该 Token 开启 models 读取权限。"
        | .copilot_api_key => "当前使用的是 COPILOT_API_KEY，请确认该 Key 具备访问模型接口权限。"
        | .no_key => "请先配置有权限的 COPILOT_API_KEY 或 GITHUB_TOKEN。"
      some (String.intercalate " "
        ["Copilot completion failed: 缺少 models 权限。",
         tokenHint,
         "也可以改用具备权限的端点：设置 COPILOT_CHAT_COMPLETIONS_URL 后重启 daemon。"])
    else none

/-- `asNonRetryableRequestError`: 400/404/422 bodies signalling unknown model,
invalid request or context-length-exceeded. -/
def asNonRetryableRequestError (status : Nat) (body : String) (modelId : String) :
    Option String :=
  let lowered := String.mk (lowerChars body.data)
  if status = 400 ∨ status = 404 ∨ status = 422 then
    if containsSub lowered "unknown_model" || containsSub lowered "unknown model" then
      some ("Copilot completion non-retryable: unknown model " ++ modelId)
    else if containsSub lowered "invalid_request" || containsSub lowered "invalid request" then
      some "Copilot completion non-retryable: invalid request"
    else if containsSub lowered "context_length" || containsSub lowered "max context" then
      some "Copilot completion non-retryable: context length exceeded"
    else none
  else none

/-- The catch-clause test `/缺少 models 权限|non-retryable/i.test(error.message)`
deciding whether to stop retrying. -/
def isNonRetryMarker (msg : String) : Bool :=
  containsSubCI msg "缺少 models 权限" || containsSubCI msg "non-retryable"

/-- Token counts of a successful completion, from the response when present
and estimated from text length otherwise (`resolveUsage`). -/
structure ResolvedUsage where
  promptTokens : Nat
  completionTokens : Nat
  totalTokens : Nat
deriving DecidableEq, Repr

def resolveUsage (json : ChatCompletionsResponse) (prompt completion : String) :
    ResolvedUsage :=
  let promptTokens := json.prompt_tokens.getD (estimateTokens prompt)
  let completionTokens := json.completion_tokens.getD (estimateTokens completion)
  let totalTokens := json.total_tokens.getD (promptTokens + completionTokens)
  { promptTokens, completionTokens, totalTokens }

/-- Outcome data of a successful attempt. -/
structure CompletionSuccess where
  text : String
  promptTokens : Nat
  completionTokens : Nat
  totalTokens : Nat
  requestId : Option String
deriving DecidableEq, Repr

/-- The body of one `try` block of the retry loop: classify a non-ok response
(auth failure first, then request failure, then the generic error message) or
extract and validate the completion text. -/
def runAttempt (c : CopilotClient) (modelId prompt : String) (r : EndpointResult) :
    Except String CompletionSuccess :=
  match r with
  | .thrown msg => .error msg
  | .httpError status body =>
    match asNonRetryableAuthError c.apiKeySource status body with
    | some e => .error e
    | none =>
      match asNonRetryableRequestError status body modelId with
      | some e => .error e
      | none => .error ("Copilot completion failed: " ++ toString status ++ " " ++ body)
  | .ok json =>
    match json.content with
    | none => .error "Copilot completion returned empty content."
    | some raw =>
      let text := trimStr raw
      if text = "" then .error "Copilot completion returned empty content."
      else
        let usage := resolveUsage json prompt text
        .ok { text,
              promptTokens := usage.promptTokens,
              completionTokens := usage.completionTokens,
              totalTokens := usage.totalTokens,
              requestId := json.id }

/-- Status field of a usage record. -/
inductive UsageStatus where
  | success
  | failure
deriving DecidableEq, Repr

/-- A usage-log line (without the ISO timestamp string and the floating-point
`estimatedCostUsd`, see the file header). -/
structure UsageLogRecord where
  modelId : String
  topic : String
  agent : String
  status : UsageStatus
  attempt : Nat
  latencyMs : Nat
  promptTokens : Nat
  completionTokens : Nat
  totalTokens : Nat
  requestId : Option String
  error : Option String
deriving DecidableEq, Repr

/-- Observable events of one `generateReply` call.  Times are milliseconds
since the call started (`startedAt = 0`). -/
inductive GenEvent where
  | budgetStop (attempt : Nat) (now : Nat)
  | request (attempt : Nat) (now : Nat)
  | sleepBackoff (attempt : Nat) (ms : Nat)
  | log (rec : UsageLogRecord)
deriving DecidableEq, Repr

/-- How the retry loop exited. -/
inductive LoopExit where
  | succeeded (attempt : Nat) (finishedAt : Nat) (info : CompletionSuccess)
  | failed (lastError : String) (finishedAt : Nat)
deriving DecidableEq, Repr

/-- Result of `generateReply`: the returned text or the raised error. -/
inductive GenResult where
  | ok (text : String)
  | error (msg : String)
deriving DecidableEq, Repr

/-- The `for (attempt = 1; attempt <= maxRetries; ...)` retry loop.
`beh a` is the behaviour of the endpoint on the a-th attempt, `dur a` the
wall-clock duration of that attempt, `fuel` the number of remaining loop
iterations (`maxRetries - attempt + 1`), `now` the current time and
`lastError` the last caught error message.  Exiting with fuel 0 is the
natural loop exit (only reachable when `maxRetries = 0`). -/
def genLoop (c : CopilotClient) (modelId prompt : String)
    (beh : Nat → EndpointResult) (dur : Nat → Nat) :
    Nat → Nat → Nat → String → List GenEvent × LoopExit
  | 0, _attempt, now, lastError => ([], .failed lastError now)
  | fuel + 1, attempt, now, _lastError =>
    if (c.maxTotalWaitMs : Int) - (now : Int) ≤ 1500 then
      ([.budgetStop attempt now],
       .failed ("request timeout budget exceeded (" ++ toString c.maxTotalWaitMs ++ "ms)") now)
    else
      let now₂ := now + dur attempt
      match runAttempt c modelId prompt (beh attempt) with
      | .ok info => ([.request attempt now], .succeeded attempt now₂ info)
      | .error msg =>
        if isNonRetryMarker msg then
          ([.request attempt now], .failed msg now₂)
        else if c.maxRetries ≤ attempt then
          ([.request attempt now], .failed msg now₂)
        else
          let nextBackoff := c.retryBaseMs * 2 ^ (attempt - 1)
          if (c.maxTotalWaitMs : Int) ≤ (now₂ : Int) + (nextBackoff : Int) then
            ([.request attempt now], .failed msg now₂)
          else
            let rest := genLoop c modelId prompt beh dur fuel (attempt + 1)
              (now₂ + nextBackoff) msg
            (.request attempt now :: .sleepBackoff attempt nextBackoff :: rest.1, rest.2)

/-- `generateReply`: enabled-check, prompt construction, retry loop, then one
terminal usage-log write and either the reply text or a raised error. -/
def generateReply (c : CopilotClient) (p : GenerateReplyParams)
    (beh : Nat → EndpointResult) (dur : Nat → Nat) : List GenEvent × GenResult :=
  if c.apiKey = "" then
    ([], .error "COPILOT_API_KEY or GITHUB_TOKEN is required for auto Copilot replies.")
  else
    let modelId := resolvedModelId c p
    let prompt := fullPrompt p
    let run := genLoop c modelId prompt beh dur c.maxRetries 1 0 "unknown error"
    match run.2 with
    | .succeeded attempt finishedAt info =>
      (run.1 ++ [.log { modelId, topic := p.topic, agent := p.agent,
                        status := .success, attempt, latencyMs := finishedAt,
                        promptTokens := info.promptTokens,
                        completionTokens := info.completionTokens,
                        totalTokens := info.totalTokens,
                        requestId := info.requestId, error := none }],
       .ok info.text)
    | .failed lastError finishedAt =>
      (run.1 ++ [.log { modelId, topic := p.topic, agent := p.agent,
                        status := .failure, attempt := c.maxRetries,
                        latencyMs := finishedAt,
                        promptTokens := 0, completionTokens := 0, totalTokens := 0,
                        requestId := none, error := some lastError }],
       .error ("Copilot generation failed after " ++ toString c.maxRetries
         ++ " attempts: " ++ lastError))

/-- Number of HTTP attempts in a trace. -/
def countRequests : List GenEvent → Nat
  | [] => 0
  | .request _ _ :: rest => countRequests rest + 1
  | _ :: rest => countRequests rest

/-- The usage records written in a trace, in order. -/
def logRecords : List GenEvent → List UsageLogRecord
  | [] => []
  | .log r :: rest => r :: logRecords rest
  | _ :: rest => logRecords rest

/-- The classification a first-response failure receives before the generic
error message is built (auth error first, then request error), mirroring the
order of checks in the `!response.ok` branch. -/
def classifyNonRetryable (c : CopilotClient) (modelId : String) (r : EndpointResult) :
    Option String :=
  match r with
  | .httpError status body =>
    match asNonRetryableAuthError c.apiKeySource status body with
    | some e => some e
    | none => asNonRetryableRequestError status body modelId
  | _ => none

/-! ## Rate limiter (src/unnamed/part_004, `enforceCopilotRateLimit`) -/

/-- The map key `chatId + ":" + topic` of the module-level
`copilotLastCallAt` map. -/
def copilotRateKey (chatId : Int) (topic : String) : String :=
  toString chatId ++ ":" ++ topic

/-- `enforceCopilotRateLimit`.  The map from key to last-call timestamp is
passed and returned explicitly; `now` is `Date.now()` at entry.  Returns the
time at which the caller proceeds to the gateway call (after the enforced
sleep, which is also the newly recorded last-call time) together with the
updated map.  A configured interval of zero returns immediately, leaving the
map untouched. -/
def enforceCopilotRateLimit (minInterval : Nat) (m : String → Option Nat)
    (chatId : Int) (topic : String) (now : Nat) : Nat × (String → Option Nat) :=
  if minInterval = 0 then (now, m)
  else
    let key := copilotRateKey chatId topic
    let last := (m key).getD 0
    let waitMs : Int := (minInterval : Int) - ((now : Int) - (last : Int))
    let callAt : Nat := if 0 < waitMs then now + waitMs.toNat else now
    (callAt, fun k => if k = key then some callAt else m k)

/-! ## Daemon polling loop (src/unnamed/part_003 and part_004, `main`) -/

/-- The shape of an inbound update as far as the dispatch of the loop is
concerned: its id, whether `callback_query?.id` is present (part_004 only)
and whether `message?.chat?.id` is present. -/
structure TUpdate where
  update_id : Int
  hasCallbackQuery : Bool
  hasMessageChatId : Bool
deriving DecidableEq, Repr

/-- Events of one iteration of the polling loop.  `process` marks the
completed handling of an update (handleMessage / handleCallbackQuery
returned), `skip` an update without message or callback, `advance` the
in-memory watermark assignment `offset = max(offset, update_id + 1)`, and
`persist` the `store.setOffset` call. -/
inductive DaemonEvent where
  | process (uid : Int)
  | skip (uid : Int)
  | advance (offset : Int)
  | persist (offset : Int)
deriving DecidableEq, Repr

/-- The `for (const update of updates)` body: handle (or skip) each update,
then advance the in-memory offset, in that order. -/
def processUpdates (offset : Int) : List TUpdate → List DaemonEvent × Int
  | [] => ([], offset)
  | u :: rest =>
    let ev := if u.hasCallbackQuery || u.hasMessageChatId then
        DaemonEvent.process u.update_id
      else
        DaemonEvent.skip u.update_id
    let off₂ := max offset (u.update_id + 1)
    let tail := processUpdates off₂ rest
    (ev :: .advance off₂ :: tail.1, tail.2)

/-- One iteration of the polling loop on a fetched batch: process every
update, then persist the offset once iff the batch was non-empty
(`if (updates.length > 0) store.setOffset(offset)`). -/
def daemonIteration (offset : Int) (updates : List TUpdate) : List DaemonEvent × Int :=
  let run := processUpdates offset updates
  if updates.isEmpty then run else (run.1 ++ [.persist run.2], run.2)

/-- The offset stored durably after (a prefix of) an event trace: it changes
only at `persist` events.  Used to state crash semantics: a crash at any
point of the trace leaves the stored offset equal to
`storedOffsetAfter stored prefix`. -/
def storedOffsetAfter (stored : Int) : List DaemonEvent → Int
  | [] => stored
  | DaemonEvent.persist n :: rest => storedOffsetAfter n rest
  | _ :: rest => storedOffsetAfter stored rest

/-- Modelled from the spec: the offset discipline of §5 — "the offset
watermark is only advanced after the full processing of an update":
the trace is a sequence of process/skip steps each immediately followed by
the advance of the watermark to `max(current, update_id + 1)`.  This
predicate is written from the words of the spec and compared against the
source-translated `processUpdates`. -/
def AdvanceAfterProcessing (off : Int) : List DaemonEvent → Prop
  | [] => True
  | DaemonEvent.process uid :: DaemonEvent.advance v :: rest =>
    v = max off (uid + 1) ∧ AdvanceAfterProcessing v rest
  | DaemonEvent.skip uid :: DaemonEvent.advance v :: rest =>
    v = max off (uid + 1) ∧ AdvanceAfterProcessing v rest
  | _ => False

/-! ## Model catalog (src/unnamed/part_007, `ModelCatalog`) -/

/-- A catalog entry.  JS truthiness of the string fields is emptiness. -/
structure CopilotModelInfo where
  id : String
  name : String
  provider : String
  pricing : String
  referenceUrl : Option String
deriving DecidableEq, Repr

/-- The built-in `DEFAULT_MODELS` list. -/
def DEFAULT_MODELS : List CopilotModelInfo :=
  [{ id := "gpt-4o", name := "GPT-4o", provider := "OpenAI",
     pricing := "按 GitHub Copilot 订阅计划计费；模型单独加价请以官方公告为准。",
     referenceUrl := some "https://github.com/features/copilot" },
   { id := "gpt-4o-mini", name := "GPT-4o Mini", provider := "OpenAI",
     pricing := "按 GitHub Copilot 订阅计划计费；模型单独加价请以官方公告为准。",
     referenceUrl := some "https://github.com/features/copilot" }]

/-- The observable content of the catalog file: missing, or parsed JSON with
an optional `models` array.  (A JSON parse error throws out of the
constructor and never produces a catalog, so it has no case here.) -/
inductive CatalogFile where
  | missing
  | parsed (models : Option (List CopilotModelInfo))
deriving DecidableEq, Repr

/-- `ModelCatalog.load`: fall back to `DEFAULT_MODELS` when the file is
missing, has no models array, an empty one, or no valid entries. -/
def ModelCatalog.load (f : CatalogFile) : List CopilotModelInfo :=
  match f with
  | .missing => DEFAULT_MODELS
  | .parsed none => DEFAULT_MODELS
  | .parsed (some ms) =>
    if ms.isEmpty then DEFAULT_MODELS
    else
      let valid := ms.filter fun m =>
        m.id ≠ "" && m.name ≠ "" && m.provider ≠ "" && m.pricing ≠ ""
      if valid.isEmpty then DEFAULT_MODELS else valid

/-- `ModelCatalog.findById`. -/
def ModelCatalog.findById (models : List CopilotModelInfo) (modelId : String) :
    Option CopilotModelInfo :=
  models.find? fun item => item.id = modelId

/-- Order-preserving deduplication keeping the first occurrence
(`[...new Set(...)]`), by structural recursion with a seen-set accumulator. -/
def dedupSeen (seen : List String) : List String → List String
  | [] => []
  | x :: xs =>
    if seen.contains x then dedupSeen seen xs
    else x :: dedupSeen (x :: seen) xs

def dedupKeepFirst (l : List String) : List String :=
  dedupSeen [] l

/-- `toDisplayName`: split the id on dashes/underscores, uppercase short
parts, capitalize longer ones. -/
def ModelCatalog.toDisplayName (modelId : String) : String :=
  String.intercalate " "
    ((((splitChars (fun c => c == '-' || c == '_') modelId.data).map
        String.mk).filter fun s => s ≠ "").map
      fun part =>
        if part.length ≤ 3 then String.mk (part.data.map Char.toUpper)
        else
          match part.data with
          | [] => part
          | c :: cs => String.mk (c.toUpper :: cs))

/-- `inferProvider`: provider guessed from how the id begins. -/
def ModelCatalog.inferProvider (modelId : String) : String :=
  let lowered := String.mk (lowerChars modelId.data)
  if charsHavePre "gpt".data lowered.data then "OpenAI"
  else if charsHavePre "claude".data lowered.data then "Anthropic"
  else if charsHavePre "gemini".data lowered.data then "Google"
  else "Unknown"

/-- The lookup in `new Map(models.map(m => [m.id, m]))`: for duplicate ids a
JS Map keeps the last binding. -/
def ModelCatalog.lastById (models : List CopilotModelInfo) (modelId : String) :
    Option CopilotModelInfo :=
  models.reverse.find? fun item => item.id = modelId

/-- `ModelCatalog.replaceWithModelIds`: normalize the id list (trim, drop
empties, dedupe); a no-op when nothing remains, otherwise rebuild the model
list in the normalized order reusing existing entries. -/
def ModelCatalog.replaceWithModelIds (models : List CopilotModelInfo)
    (modelIds : List String) : List CopilotModelInfo :=
  let normalizedIds :=
    dedupKeepFirst ((modelIds.map trimStr).filter fun s => s ≠ "")
  if normalizedIds.isEmpty then models
  else
    normalizedIds.map fun id =>
      match ModelCatalog.lastById models id with
      | some hit => hit
      | none =>
        { id, name := ModelCatalog.toDisplayName id,
          provider := ModelCatalog.inferProvider id,
          pricing := "按 GitHub Copilot 订阅计划计费；模型单独加价请以官方公告为准。",
          referenceUrl := some "https://github.com/features/copilot" }

/-! ## Configuration (the fields of `AppConfig` the embedded code reads) -/

structure AppConfig where
  defaultTopic : String
  defaultAgent : String
  defaultModel : String
  githubRepoUrl : String
deriving DecidableEq, Repr

/-! ## i18n (src/src/i18n.ts) -/

inductive UiLanguage where
  | zh
  | en
deriving DecidableEq, Repr

def UI_LANGUAGE_KEY : String := "ui_language"

/-- The string stored in Topic State for a language. -/
def uiLanguageString : UiLanguage → String
  | .zh => "zh"
  | .en => "en"

def zhInputs : List String := ["zh", "zh-cn", "cn", "中文", "chinese"]

def enInputs : List String := ["en", "en-us", "english", "英文"]

/-- `parseLanguageInput`: recognize a language choice, `none` otherwise. -/
def parseLanguageInput (raw : Option String) : Option UiLanguage :=
  match raw with
  | none => none
  | some r =>
    if r = "" then none
    else
      let lowered := String.mk (lowerChars (trimStr r).data)
      if zhInputs.contains lowered then some .zh
      else if enInputs.contains lowered then some .en
      else none

def pickLanguageText (language : UiLanguage) (zh en : String) : String :=
  match language with
  | .en => en
  | .zh => zh

def languageLabel (language : UiLanguage) : String :=
  match language with
  | .en => "English"
  | .zh => "中文"

def languageInstruction (language : UiLanguage) : String :=
  match language with
  | .en => "Language requirement: Respond in English. Keep technical terms accurate; do not switch to Chinese unless the user explicitly requests translation."
  | .zh => "语言要求：请使用中文回复，技术术语可保留英文；除非用户明确要求翻译，否则不要切换到英文。"

def withLanguageInstruction (language : UiLanguage) (content : String) : String :=
  languageInstruction language ++ "\n\n" ++ content

/-! ## Session store (spec-modelled)

Modelled from the spec: the daemons import `SessionStore` from
`./sessionStore.js`, whose source file is not part of the snapshot (only its
callers are).  §3/§4.1 of the spec describe it: an append-only message log
ordered by insertion, a `(chatId, topic, key) → value` Topic-State map with
last-write-wins semantics, profile/selected-model convenience wrappers with
configured fallbacks, and a monotone offset.  Retention pruning and the
continuation summary policy are not needed by the verified claims and are
modelled minimally.  The concrete Topic-State key under which the selected
model is stored is internal to the missing file; it is represented by the
opaque constant `selectedModelKey`, and no claim depends on its value.  The
storage of the current profile is likewise internal; it is modelled as maps
that the embedded handlers never write, which is consistent with both
plausible implementations (dedicated keys, or derivation from the latest
message of the same thread) for the message sequences the claims consider. -/

inductive Role where
  | user
  | assistant
  | system
deriving DecidableEq, Repr

def Role.asString : Role → String
  | .user => "user"
  | .assistant => "assistant"
  | .system => "system"

structure StoredMessage where
  chatId : Int
  topic : String
  role : Role
  agent : String
  content : String
deriving DecidableEq, Repr

structure SessionStore where
  messages : List StoredMessage
  topicState : Int → String → String → Option String
  profileTopic : Int → Option String
  profileAgent : Int → Option String
  storedOffset : Int

/-- The Topic-State key of the selected model (internal to the missing
`sessionStore.ts`; opaque to all claims). -/
def selectedModelKey : String := "selected_model"

def SessionStore.append (s : SessionStore) (m : StoredMessage) : SessionStore :=
  { s with messages := s.messages ++ [m] }

def SessionStore.getTopicState (s : SessionStore) (chatId : Int) (topic key : String) :
    Option String :=
  s.topicState chatId topic key

def SessionStore.setTopicState (s : SessionStore) (chatId : Int) (topic key value : String) :
    SessionStore :=
  { s with topicState := fun c t k =>
      if c = chatId ∧ t = topic ∧ k = key then some value else s.topicState c t k }

def SessionStore.setSelectedModel (s : SessionStore) (chatId : Int) (topic modelId : String) :
    SessionStore :=
  s.setTopicState chatId topic selectedModelKey modelId

/-- Modelled from the spec: "`getSelectedModel(chatId, topic) → modelId`:
convenience wrapper over Topic State with configured fallbacks". -/
def SessionStore.getSelectedModel (s : SessionStore) (config : AppConfig)
    (chatId : Int) (topic : String) : String :=
  (s.topicState chatId topic selectedModelKey).getD config.defaultModel

/-- Modelled from the spec: "`getCurrentProfile(chatId, defaultTopic) →
{topic, agent}`" with configured fallbacks. -/
def SessionStore.getCurrentProfile (s : SessionStore) (defaultTopic : String)
    (config : AppConfig) (chatId : Int) : String × String :=
  ((s.profileTopic chatId).getD defaultTopic,
   (s.profileAgent chatId).getD config.defaultAgent)

/-- Modelled from the spec: history read, optionally filtered by topic,
returning the most recent `limit` messages in insertion order. -/
def SessionStore.getHistory (s : SessionStore) (chatId : Int) (topic : Option String)
    (limit : Nat) : List StoredMessage :=
  let l := s.messages.filter fun m =>
    m.chatId == chatId && (match topic with | some t => m.topic == t | none => true)
  l.drop (l.length - limit)

/-- Modelled from the spec: case-insensitive substring search over content
across topics of the chat, most recent `limit` in insertion order. -/
def SessionStore.search (s : SessionStore) (chatId : Int) (keyword : String)
    (limit : Nat) : List StoredMessage :=
  let l := s.messages.filter fun m =>
    m.chatId == chatId && containsSubCI m.content keyword
  l.drop (l.length - limit)

/-- Modelled from the spec: the continuation read model produces a textual
summary of the most recent messages of the thread; no verified claim
inspects its content, only that it is read without mutating the store. -/
def SessionStore.continueContextSummary (s : SessionStore) (chatId : Int)
    (topic : String) (limit : Nat) : String :=
  String.intercalate "\n"
    ((s.getHistory chatId (some topic) limit).map fun m =>
      m.role.asString ++ ": " ++ m.content)

def SessionStore.getOffset (s : SessionStore) : Int :=
  s.storedOffset

/-- Modelled from the spec: "`setOffset(n)` rejects (or clamps) a value lower
than the currently stored offset — offset must never move backward". -/
def SessionStore.setOffset (s : SessionStore) (n : Int) : SessionStore :=
  { s with storedOffset := max s.storedOffset n }

/-! ## Command parsing (src/src/topic.ts, the parser used by the
src/unnamed/part_003 daemon) -/

/-- JS `\w` (ASCII word character). -/
def isJsWordChar (c : Char) : Bool :=
  c.isAlphanum || c == '_'

/-- The `[\w\-.]` class of AGENT_RE / MODEL_RE. -/
def isModelArgChar (c : Char) : Bool :=
  isJsWordChar c || c == '-' || c == '.'

/-- The `[\w\-]` class of TOPIC_RE. -/
def isTopicArgChar (c : Char) : Bool :=
  isJsWordChar c || c == '-'

/-- JS `\s` restricted to the whitespace the commands can contain
(JS additionally treats some exotic Unicode spaces as `\s`; none of the
verified properties depend on those). -/
def isJsSpace (c : Char) : Bool :=
  c.isWhitespace

/-- Strip a case-insensitive literal prefix (given lower-case) from a char
list. -/
def stripLiteralCI : List Char → List Char → Option (List Char)
  | [], s => some s
  | _ :: _, [] => none
  | p :: ps, c :: cs => if c.toLower == p then stripLiteralCI ps cs else none

/-- `^cmd$` case-insensitively. -/
def matchExactCI (cmd : String) (raw : String) : Bool :=
  lowerChars raw.data == cmd.data

/-- `^cmd\s+(arg)$` where `arg` is 1..maxLen characters of the class
`argChar` (the shape of TOPIC_RE, AGENT_RE, MODEL_RE, MODE_RE with an
alternation class). Returns the capture in original case. -/
def matchCmdArg (cmd : String) (argChar : Char → Bool) (maxLen : Nat)
    (raw : String) : Option String :=
  match stripLiteralCI cmd.data raw.data with
  | none => none
  | some rest =>
    let sp := rest.takeWhile isJsSpace
    let r := rest.dropWhile isJsSpace
    if sp.isEmpty then none
    else if r.isEmpty then none
    else if r.all argChar && decide (r.length ≤ maxLen) then some (String.mk r)
    else none

/-- JS line terminators excluded by `.` (restricted to the two that
`isJsSpace` can produce). -/
def isLineTerm (c : Char) : Bool :=
  c == '\n' || c == '\r'

/-- `^cmd\s+(.+)$` (the shape of ASK_RE and of the argument part of HISTORY_RE).
The backtracking semantics of the greedy `\s+` against `(.+)$`: when
something follows the whitespace it must be free of line terminators and is
captured whole; when only whitespace follows, `(.+)` captures the final
whitespace character provided at least two whitespace characters are present
and the last one is not a line terminator. -/
def matchCmdRestArg (cmd : String) (raw : String) : Option String :=
  match stripLiteralCI cmd.data raw.data with
  | none => none
  | some rest =>
    let sp := rest.takeWhile isJsSpace
    let r := rest.dropWhile isJsSpace
    if sp.isEmpty then none
    else
      match r with
      | [] =>
        if 2 ≤ sp.length then
          match sp.getLast? with
          | some c => if isLineTerm c then none else some (String.mk [c])
          | none => none
        else none
      | _ :: _ =>
        if r.any isLineTerm then none else some (String.mk r)

/-- START_RE `^\/start(?:@[\w_]+)?$`. -/
def matchStart (raw : String) : Bool :=
  matchExactCI "/start" raw ||
    (match stripLiteralCI "/start@".data raw.data with
     | some rest => !rest.isEmpty && rest.all isJsWordChar
     | none => false)

/-- MODE_RE `^\/mode\s+(manual|auto)$`: the captured mode, lower-cased. -/
def matchMode (raw : String) : Option String :=
  match stripLiteralCI "/mode".data raw.data with
  | none => none
  | some rest =>
    let sp := rest.takeWhile isJsSpace
    let r := rest.dropWhile isJsSpace
    if sp.isEmpty then none
    else if lowerChars r == "manual".data then some "manual"
    else if lowerChars r == "auto".data then some "auto"
    else none

/-- PAPER_RE `^\/paper(?:\s+(current))?$`. -/
def matchPaper (raw : String) : Bool :=
  matchExactCI "/paper" raw ||
    (match stripLiteralCI "/paper".data raw.data with
     | some rest =>
       let sp := rest.takeWhile isJsSpace
       let r := rest.dropWhile isJsSpace
       !sp.isEmpty && lowerChars r == "current".data
     | none => false)

inductive TgCommand where
  | topic
  | agent
  | history
  | mode
  | start
  | models
  | model
  | ask
  | paper
deriving DecidableEq, Repr

inductive ReplyMode where
  | manual
  | auto
deriving DecidableEq, Repr

structure ParsedMessage where
  topic : String
  agent : String
  modelId : String
  text : String
  command : Option TgCommand
  mode : Option ReplyMode
  keyword : Option String
  question : Option String
  repoUrl : Option String
deriving DecidableEq, Repr

def buildWelcomeMessage (repoUrl : String) : String :=
  String.intercalate "\n"
    ["欢迎使用 Telegram ↔ VS Code Copilot Bridge Skill。",
     "你可以在 Telegram 中直接与 Copilot 对话，并支持历史续聊、智能体切换、模型选择与 PDF 论文分析。",
     "常用命令：/start /topic /agent /models /model /history /mode /paper /ask",
     "GitHub 仓库：" ++ repoUrl]

/-- A `ParsedMessage` with the resolved profile defaults and no optional
fields set. -/
def baseParsed (topic agent modelId text : String) : ParsedMessage :=
  { topic, agent, modelId, text, command := none, mode := none,
    keyword := none, question := none, repoUrl := none }

/-- `parseTelegramText` (src/src/topic.ts): three-tier resolution of topic,
agent and model, then first-match classification over the command patterns
in source order. -/
def parseTelegramText (input : Option String) (config : AppConfig)
    (currentTopic currentAgent currentModelId : Option String) : ParsedMessage :=
  let raw := trimStr (input.getD "")
  let topic := currentTopic.getD config.defaultTopic
  let agent := currentAgent.getD config.defaultAgent
  let modelId := currentModelId.getD config.defaultModel
  if matchStart raw then
    { baseParsed topic agent modelId (buildWelcomeMessage config.githubRepoUrl) with
      command := some .start, repoUrl := some config.githubRepoUrl }
  else if matchExactCI "/models" raw then
    { baseParsed topic agent modelId "Model list requested" with command := some .models }
  else match matchCmdArg "/model" isModelArgChar 64 raw with
  | some m =>
    { baseParsed topic agent m ("Model changed to " ++ m) with command := some .model }
  | none =>
  match matchCmdRestArg "/ask" raw with
  | some q =>
    { baseParsed topic agent modelId "Paper question requested" with
      command := some .ask, question := some (trimStr q) }
  | none =>
  if matchPaper raw then
    { baseParsed topic agent modelId "Paper status requested" with command := some .paper }
  else match matchCmdArg "/topic" isTopicArgChar 64 raw with
  | some t =>
    { baseParsed t agent modelId ("Topic changed to " ++ t) with command := some .topic }
  | none =>
  match matchCmdArg "/agent" isModelArgChar 64 raw with
  | some a =>
    { baseParsed topic a modelId ("Agent changed to " ++ a) with command := some .agent }
  | none =>
  match
    (if matchExactCI "/history" raw then some ""
     else match matchCmdRestArg "/history" raw with
          | some kw => some (trimStr kw)
          | none => none) with
  | some keyword =>
    { baseParsed topic agent modelId "History query" with
      command := some .history, keyword := some keyword }
  | none =>
  match matchMode raw with
  | some m =>
    { baseParsed topic agent modelId ("Reply mode changed to " ++ m) with
      command := some .mode,
      mode := if m = "auto" then some .auto else some .manual }
  | none => baseParsed topic agent modelId raw

/-! ## Message handlers

Handlers are embedded as functions from the store (plus parsed input and
collaborator behaviour) to the pair of an action trace — telegram sends,
store writes, the rate-limiter wait, the completion-gateway call, in program
order — and the resulting store. -/

inductive Action where
  | sendMessage (chatId : Int) (text : String)
  | appendMsg (m : StoredMessage)
  | setTopicState (chatId : Int) (topic key value : String)
  | setSelectedModel (chatId : Int) (topic modelId : String)
  | rateLimit (chatId : Int) (topic : String)
  | copilotGenerate (modelId topic agent : String)
deriving DecidableEq, Repr

/-- `.replace(/\s+/g, ' ')`: each maximal whitespace run becomes a single
space (structural recursion with an in-run flag). -/
def collapseGo (inRun : Bool) : List Char → List Char
  | [] => []
  | c :: cs =>
    if c.isWhitespace then
      if inRun then collapseGo true cs else ' ' :: collapseGo true cs
    else c :: collapseGo false cs

def collapseSpaces (l : List Char) : List Char :=
  collapseGo false l

/-- `records.slice(-8)`. -/
def lastEight (l : List StoredMessage) : List StoredMessage :=
  l.drop (l.length - 8)

/-- The history preview of the part_003 handler. -/
def historyPreview (records : List StoredMessage) : String :=
  String.intercalate "\n"
    ((lastEight records).map fun item =>
      item.role.asString ++ ": " ++ takeStr (String.mk (collapseSpaces item.content.data)) 120)

/-- `formatModelList` (src/unnamed/part_003). -/
def formatModelList (catalog : List CopilotModelInfo) : String :=
  String.intercalate "\n"
    ("当前可选 Copilot 大模型：" ::
      catalog.map fun item =>
        "- " ++ item.id ++ " | " ++ item.name ++ " | " ++ item.provider
          ++ "\n  计费：" ++ item.pricing)

/-- `handleMessage` of the src/unnamed/part_003 daemon. -/
def handleMessage3 (store : SessionStore) (catalog : List CopilotModelInfo)
    (config : AppConfig) (chatId : Int) (text : String) :
    List Action × SessionStore :=
  let profile := store.getCurrentProfile config.defaultTopic config chatId
  let selectedModel := store.getSelectedModel config chatId profile.1
  let parsed := parseTelegramText (some text) config (some profile.1) (some profile.2)
    (some selectedModel)
  match parsed.command with
  | some .start => ([.sendMessage chatId parsed.text], store)
  | some .models => ([.sendMessage chatId (formatModelList catalog)], store)
  | some .model =>
    match ModelCatalog.findById catalog parsed.modelId with
    | none =>
      ([.sendMessage chatId
          ("未找到模型：" ++ parsed.modelId ++ "。请先执行 /models 查看可用模型。")], store)
    | some _ =>
      let audit : StoredMessage :=
        ⟨chatId, parsed.topic, .system, parsed.agent, "Model changed to " ++ parsed.modelId⟩
      ([.setSelectedModel chatId parsed.topic parsed.modelId,
        .appendMsg audit,
        .sendMessage chatId ("已切换模型为 " ++ parsed.modelId)],
       ((store.setSelectedModel chatId parsed.topic parsed.modelId).append audit))
  | some .history =>
    let kw := parsed.keyword.getD ""
    let records :=
      if kw ≠ "" then store.search chatId kw 8
      else store.getHistory chatId (some parsed.topic) 8
    if records.isEmpty then ([.sendMessage chatId "未找到历史记录。"], store)
    else ([.sendMessage chatId ("历史记录预览：\n" ++ historyPreview records)], store)
  | some .topic | some .agent | some .mode =>
    let audit : StoredMessage := ⟨chatId, parsed.topic, .system, parsed.agent, parsed.text⟩
    ([.appendMsg audit, .sendMessage chatId parsed.text], store.append audit)
  | _ =>
    let userMsg : StoredMessage := ⟨chatId, parsed.topic, .user, parsed.agent, parsed.text⟩
    ([.appendMsg userMsg,
      .sendMessage chatId
        ("已收到消息并写入会话（topic=" ++ parsed.topic ++ ", agent=" ++ parsed.agent
          ++ ", model=" ++ parsed.modelId
          ++ "）。\n当前为低消耗待机模式：守护进程会持续监听，但不会自动调用 Copilot。\n如需让 Copilot 生成回复，请在 VS Code Copilot Chat 中调用 /telegram-copilot-bridge 处理该会话。")],
     store.append userMsg)

/-! ## part_004 handler branches

`handleMessage` of the src/unnamed/part_004 daemon is a dispatch over
`parsed.command`; the branches the claims are about are embedded one by one
as functions of the parsed values that reach them. -/

/-- `getUiLanguage` (src/unnamed/part_004). -/
def getUiLanguage (store : SessionStore) (chatId : Int) (topic : String) : UiLanguage :=
  match store.getTopicState chatId topic UI_LANGUAGE_KEY with
  | some raw => if raw = "en" then .en else .zh
  | none => .zh

/-- `localize` (src/unnamed/part_004). -/
def localize (store : SessionStore) (chatId : Int) (topic : String) (zh en : String) :
    String :=
  pickLanguageText (getUiLanguage store chatId topic) zh en

/-- `sendChunks` slices the text into chunks of 3500 characters; an empty
text produces no send at all.  Structural single pass: `budget` counts how
many more characters fit into the chunk being accumulated in `cur`
(reversed). -/
def chunkGo (budget : Nat) (cur : List Char) : List Char → List (List Char)
  | [] => [cur.reverse]
  | c :: cs =>
    match budget with
    | 0 => cur.reverse :: chunkGo 3499 [c] cs
    | b + 1 => chunkGo b (c :: cur) cs

def chunkChars : List Char → List (List Char)
  | [] => []
  | c :: cs => chunkGo 3499 [c] cs

def sendChunksActions (chatId : Int) (text : String) : List Action :=
  (chunkChars text.data).map fun l => .sendMessage chatId (String.mk l)

/-- The language-command branch of `handleMessage` (src/unnamed/part_004 lines
457-502): report the current language when no argument was given, reject an
unsupported value, else persist the language to Topic State and confirm. -/
def handleLanguageCommand (store : SessionStore) (chatId : Int) (topic : String)
    (languageInput : Option String) : List Action × SessionStore :=
  let raw := languageInput.map trimStr
  if raw.getD "" = "" then
    let current := getUiLanguage store chatId topic
    (sendChunksActions chatId
      (localize store chatId topic
        ("当前语言：" ++ languageLabel current
          ++ "\n设置方式：/language zh 或 /language en（简写：/lang zh|en）")
        ("Current language: " ++ languageLabel current
          ++ "\nUsage: /language zh or /language en (short: /lang zh|en)")), store)
  else
    match parseLanguageInput raw with
    | none =>
      (sendChunksActions chatId
        (localize store chatId topic
          "不支持的语言值。请使用：/language zh 或 /language en"
          "Unsupported language value. Use: /language zh or /language en"), store)
    | some next =>
      let store₂ := store.setTopicState chatId topic UI_LANGUAGE_KEY (uiLanguageString next)
      (Action.setTopicState chatId topic UI_LANGUAGE_KEY (uiLanguageString next) ::
        sendChunksActions chatId
          (pickLanguageText next
            ("语言已切换为 " ++ languageLabel next ++ "。之后 bot 回复与模型输出都将遵循该语言。")
            ("Language switched to " ++ languageLabel next
              ++ ". Bot messages and model outputs will follow this setting.")),
       store₂)

/-- The model-command branch of `handleMessage` (src/unnamed/part_004 lines
577-609): validate against the catalog, persist the selection, append the
system audit message, confirm. -/
def handleModelCommand4 (store : SessionStore) (catalog : List CopilotModelInfo)
    (chatId : Int) (topic agent modelId : String) : List Action × SessionStore :=
  match ModelCatalog.findById catalog modelId with
  | none =>
    (sendChunksActions chatId
      (localize store chatId topic
        ("未找到模型：" ++ modelId ++ "。请先执行 /models 查看可用模型。")
        ("Model not found: " ++ modelId ++ ". Run /models to view available models.")),
     store)
  | some _ =>
    let audit : StoredMessage :=
      ⟨chatId, topic, .system, agent, "Model changed to " ++ modelId⟩
    let store₂ := (store.setSelectedModel chatId topic modelId).append audit
    (Action.setSelectedModel chatId topic modelId ::
      Action.appendMsg audit ::
      sendChunksActions chatId
        (localize store₂ chatId topic
          ("已切换模型为 " ++ modelId)
          ("Model switched to " ++ modelId)),
     store₂)

/-- The topic/agent/mode command branch of `handleMessage` (src/unnamed/part_004 lines
1407-1418): append the system audit message and echo it. -/
def handleTopicAgentModeCommand4 (store : SessionStore) (chatId : Int)
    (topic agent text : String) : List Action × SessionStore :=
  let audit : StoredMessage := ⟨chatId, topic, .system, agent, text⟩
  (Action.appendMsg audit :: sendChunksActions chatId text, store.append audit)

/-- Modelled from the spec: the document-ingestion record `{title, category,
summary, storagePath}` of §6 (the `PaperManager` source is not part of the
snapshot; the ask branch only reads these fields). -/
structure PaperRecord where
  title : String
  category : String
  summary : String
  storagePath : String
deriving DecidableEq, Repr

/-- The ask-command branch of `handleMessage` (src/unnamed/part_004 lines
1262-1386).  Collaborators are passed as functions: `papers` is
`PaperManager.getPaperByPath`, `qaContext` is
`PaperManager.buildCopilotQaContext`, `copilotEnabled` is
`copilot.isEnabled()` and `copilotOutcome` the outcome of the
`copilot.generateReply` call inside the `try` block. -/
def handleAskCommand4 (store : SessionStore) (catalog : List CopilotModelInfo)
    (config : AppConfig) (papers : String → Option PaperRecord)
    (qaContext : PaperRecord → String → String)
    (copilotEnabled : Bool) (copilotOutcome : Except String String)
    (chatId : Int) (topic agent modelId : String)
    (parsedQuestion parsedAskModelId : Option String) : List Action × SessionStore :=
  let paperPath := store.getTopicState chatId topic "active_paper_path"
  let paper := match paperPath with | some pth => papers pth | none => none
  match paper with
  | none =>
    (sendChunksActions chatId
      (localize store chatId topic
        "当前没有可问答的论文，请先发送 PDF。"
        "No paper available for QA. Please send a PDF first."), store)
  | some paper =>
    let question := trimStr (parsedQuestion.getD "")
    if question = "" then
      (sendChunksActions chatId
        (localize store chatId topic
          "请使用 /ask <你的问题> 进行提问，或 /ask --model <model-id> <你的问题>。"
          "Use /ask <your question> or /ask --model <model-id> <your question>."), store)
    else
      let askTrim := (parsedAskModelId.map trimStr).getD ""
      if askTrim ≠ "" ∧ (ModelCatalog.findById catalog askTrim).isNone then
        (sendChunksActions chatId
          (localize store chatId topic
            ("未找到模型：" ++ askTrim ++ "。请先执行 /models 查看可用模型。")
            ("Model not found: " ++ askTrim ++ ". Run /models to view available models.")),
         store)
      else
        let modelIdForAsk₀ := if askTrim = "" then modelId else askTrim
        let useFallback := askTrim = "" ∧ (ModelCatalog.findById catalog modelIdForAsk₀).isNone
        let modelIdForAsk := if useFallback then config.defaultModel else modelIdForAsk₀
        let store₁ := if useFallback then
            store.setSelectedModel chatId topic config.defaultModel
          else store
        let fallbackActions : List Action := if useFallback then
            Action.setSelectedModel chatId topic config.defaultModel ::
            sendChunksActions chatId
              (localize store₁ chatId topic
                ("检测到当前话题模型不可用，已自动回退为 " ++ config.defaultModel
                  ++ "。可用 /model <id> 或 /askm <id> <问题> 指定模型。")
                ("Current topic model is unavailable; auto-fallback to " ++ config.defaultModel
                  ++ ". Use /model <id> or /askm <id> <question> to override."))
          else []
        let copilotContext := qaContext paper question
        let mUser : StoredMessage := ⟨chatId, topic, .user, agent, question⟩
        let mCtx : StoredMessage :=
          ⟨chatId, topic, .system, agent, "[paper-context]\n" ++ takeStr copilotContext 6000⟩
        let store₂ := (store₁.append mUser).append mCtx
        if copilotEnabled = false then
          (fallbackActions ++ [.appendMsg mUser, .appendMsg mCtx]
            ++ sendChunksActions chatId
              (localize store₂ chatId topic
                (String.intercalate "\n"
                  ["已记录你的论文问题和上下文。",
                   "当前未配置自动大模型调用凭据。",
                   "请设置环境变量 COPILOT_API_KEY 或 GITHUB_TOKEN 后重启 daemon。"])
                (String.intercalate "\n"
                  ["Your paper question and context are saved.",
                   "Auto model credentials are not configured.",
                   "Set COPILOT_API_KEY or GITHUB_TOKEN and restart the daemon."])),
           store₂)
        else
          match copilotOutcome with
          | .ok answer =>
            let mAsst : StoredMessage :=
              ⟨chatId, topic, .assistant, agent,
               "[copilot-paper-qa] " ++ question ++ " => " ++ takeStr answer 3000⟩
            (fallbackActions
              ++ [.appendMsg mUser, .appendMsg mCtx,
                  .rateLimit chatId topic,
                  .copilotGenerate modelIdForAsk topic agent,
                  .appendMsg mAsst]
              ++ sendChunksActions chatId answer,
             store₂.append mAsst)
          | .error emsg =>
            (fallbackActions
              ++ [.appendMsg mUser, .appendMsg mCtx,
                  .rateLimit chatId topic,
                  .copilotGenerate modelIdForAsk topic agent]
              ++ sendChunksActions chatId
                (localize store₂ chatId topic
                  ("自动 Copilot 论文问答失败：" ++ emsg)
                  ("Automatic Copilot paper QA failed: " ++ emsg)),
             store₂)

/-! ## Concrete instances used by witnesses and counterexamples -/

/-- A client with the default configuration (`COPILOT_MAX_RETRIES = 3`,
`COPILOT_RETRY_BASE_MS = 400`, `COPILOT_TIMEOUT_MS = 25000`,
`COPILOT_MAX_TOTAL_WAIT_MS = 70000`) and a GitHub token credential. -/
def cl₀ : CopilotClient :=
  { apiKey := "token", apiKeySource := .github_token, maxRetries := 3,
    retryBaseMs := 400, timeoutMs := 25000, maxTotalWaitMs := 70000,
    defaultModel := "gpt-4o" }

def p₀ : GenerateReplyParams :=
  { modelId := "gpt-4o", topic := "default", agent := "default",
    userInput := "hello", contextSummary := "", extraContext := none }

/-- An endpoint that always times out at the network level. -/
def behTimeout : Nat → EndpointResult := fun _ => .thrown "connect ETIMEDOUT"

/-- An endpoint that always answers 403 with a missing-models-permission
body. -/
def behAuth : Nat → EndpointResult :=
  fun _ => .httpError 403 "the token is missing Models permission"

/-- An endpoint that always answers 404 with an unknown-model body. -/
def behUnknownModel : Nat → EndpointResult :=
  fun _ => .httpError 404 "unknown_model"

/-- An endpoint that always answers 500 with a body that happens to contain
the string scanned for by the non-retryable marker test. -/
def behMarker500 : Nat → EndpointResult :=
  fun _ => .httpError 500 "transient upstream hiccup, non-retryable per vendor"

/-- An endpoint that always answers 500 with a marker-free body. -/
def beh500 : Nat → EndpointResult :=
  fun _ => .httpError 500 "internal server error"

/-- An endpoint that succeeds on the first attempt. -/
def behOkFirst : Nat → EndpointResult :=
  fun _ => .ok { id := some "req-1", prompt_tokens := some 10,
                 completion_tokens := some 5, total_tokens := some 15,
                 content := some "the answer" }

def durZero : Nat → Nat := fun _ => 0

/-- The trimmed input matches none of the command patterns, so
`parseTelegramText` classifies it as a free-form message (the conjuncts list
the source patterns in evaluation order). -/
def NoCommandMatch (raw : String) : Prop :=
  matchStart raw = false ∧
  matchExactCI "/models" raw = false ∧
  matchCmdArg "/model" isModelArgChar 64 raw = none ∧
  matchCmdRestArg "/ask" raw = none ∧
  matchPaper raw = false ∧
  matchCmdArg "/topic" isTopicArgChar 64 raw = none ∧
  matchCmdArg "/agent" isModelArgChar 64 raw = none ∧
  matchExactCI "/history" raw = false ∧
  matchCmdRestArg "/history" raw = none ∧
  matchMode raw = none

/-- A store with no messages, no topic state and no stored profile. -/
def emptyStore : SessionStore :=
  { messages := [], topicState := fun _ _ _ => none,
    profileTopic := fun _ => none, profileAgent := fun _ => none,
    storedOffset := 0 }

def cfg₀ : AppConfig :=
  { defaultTopic := "default", defaultAgent := "default",
    defaultModel := "gpt-4o", githubRepoUrl := "https://example.invalid/repo" }

/-- A paper record and store fixtures for the ask-branch witness. -/
def paper₀ : PaperRecord :=
  { title := "Sample Paper", category := "ml", summary := "A summary.",
    storagePath := "p1" }

def papers₀ : String → Option PaperRecord :=
  fun p => if p = "p1" then some paper₀ else none

def qaContext₀ : PaperRecord → String → String :=
  fun p q => "Paper: " ++ p.title ++ "\nQuestion: " ++ q

/-- A store whose default topic has an active paper pointer. -/
def paperStore : SessionStore :=
  emptyStore.setTopicState 7 "default" "active_paper_path" "p1"

/-- A two-update batch: one real message, one update without a message. -/
def updates₀ : List TUpdate :=
  [{ update_id := 10, hasCallbackQuery := false, hasMessageChatId := true },
   { update_id := 11, hasCallbackQuery := false, hasMessageChatId := false }]

/-- The exact non-retryable auth error message produced for `behAuth` under a
GitHub-token credential (used to state witnesses). -/
def authErrMsg : String :=
  String.intercalate " "
    ["Copilot completion failed: 缺少 models 权限。",
     "当前使用的是 GITHUB_TOKEN，请为该 Token 开启 models 读取权限。",
     "也可以改用具备权限的端点：设置 COPILOT_CHAT_COMPLETIONS_URL 后重启 daemon。"]

/-! # Theorems -/

/-! ## String containment lemmas -/

theorem charsContain_nil_needle (l : List Char) : charsContain [] l = true := by
  cases l with
  | nil => rfl
  | cons c cs => simp [charsContain, charsHavePre]

theorem charsHavePre_append (n a b : List Char) (h : charsHavePre n a = true) :
    charsHavePre n (a ++ b) = true := by
  induction n generalizing a with
  | nil => rfl
  | cons x xs ih =>
    cases a with
    | nil => simp [charsHavePre] at h
    | cons y ys =>
      simp only [charsHavePre, Bool.and_eq_true] at h
      simp only [List.cons_append, charsHavePre, Bool.and_eq_true]
      exact ⟨h.1, ih ys h.2⟩

theorem charsContain_append_left (n a b : List Char) (h : charsContain n a = true) :
    charsContain n (a ++ b) = true := by
  induction a with
  | nil =>
    simp only [charsContain, List.isEmpty_iff] at h
    subst h
    simpa using charsContain_nil_needle b
  | cons c cs ih =>
    simp only [charsContain, Bool.or_eq_true] at h
    simp only [List.cons_append, charsContain, Bool.or_eq_true]
    rcases h with h | h
    · exact Or.inl (charsHavePre_append n (c :: cs) b h)
    · exact Or.inr (ih h)

theorem lowerChars_append (a b : List Char) :
    lowerChars (a ++ b) = lowerChars a ++ lowerChars b := by
  simp [lowerChars]

theorem containsSubCI_append_left (s₁ s₂ needle : String)
    (h : containsSubCI s₁ needle = true) : containsSubCI (s₁ ++ s₂) needle = true := by
  unfold containsSubCI at h ⊢
  rw [String.data_append, lowerChars_append]
  exact charsContain_append_left _ _ _ h

/-! ## Non-retryable classification lemmas -/

theorem marker_of_auth (src : ApiKeySource) (status : Nat) (body : String) (e : String)
    (h : asNonRetryableAuthError src status body = some e) : isNonRetryMarker e = true := by
  cases src
  all_goals
    simp only [asNonRetryableAuthError] at h
  all_goals
    split at h
  · exact absurd h (by simp)
  · split at h
    · simp only [Option.some.injEq] at h
      subst h
      decide
    · exact absurd h (by simp)
  · exact absurd h (by simp)
  · split at h
    · simp only [Option.some.injEq] at h
      subst h
      decide
    · exact absurd h (by simp)
  · exact absurd h (by simp)
  · split at h
    · simp only [Option.some.injEq] at h
      subst h
      decide
    · exact absurd h (by simp)

theorem marker_of_request (status : Nat) (body modelId : String) (e : String)
    (h : asNonRetryableRequestError status body modelId = some e) :
    isNonRetryMarker e = true := by
  simp only [asNonRetryableRequestError] at h
  split at h
  · split at h
    · simp only [Option.some.injEq] at h
      subst h
      unfold isNonRetryMarker
      have hsub : containsSubCI ("Copilot completion non-retryable: unknown model " ++ modelId)
          "non-retryable" = true :=
        containsSubCI_append_left _ _ _ (by decide)
      simp [hsub]
    · split at h
      · simp only [Option.some.injEq] at h
        subst h
        decide
      · split at h
        · simp only [Option.some.injEq] at h
          subst h
          decide
        · exact absurd h (by simp)
  · exact absurd h (by simp)

theorem runAttempt_of_classify (c : CopilotClient) (modelId prompt : String)
    (r : EndpointResult) (e : String) (h : classifyNonRetryable c modelId r = some e) :
    runAttempt c modelId prompt r = .error e ∧ isNonRetryMarker e = true := by
  cases r with
  | thrown msg => exact absurd h (by simp [classifyNonRetryable])
  | ok json => exact absurd h (by simp [classifyNonRetryable])
  | httpError status body =>
    simp only [classifyNonRetryable] at h
    cases hA : asNonRetryableAuthError c.apiKeySource status body with
    | some e' =>
      rw [hA] at h
      simp only [Option.some.injEq] at h
      subst h
      refine ⟨?_, marker_of_auth _ _ _ _ hA⟩
      simp only [runAttempt]
      rw [hA]
    | none =>
      rw [hA] at h
      dsimp only at h
      refine ⟨?_, marker_of_request _ _ _ _ h⟩
      simp only [runAttempt]
      rw [hA]
      dsimp only
      rw [h]

/-! ## Retry loop lemmas -/

theorem genLoop_events (c : CopilotClient) (modelId prompt : String)
    (beh : Nat → EndpointResult) (dur : Nat → Nat) (fuel a now : Nat) (le : String) :
    ∀ e ∈ (genLoop c modelId prompt beh dur fuel a now le).1,
      (∃ a' t, e = .budgetStop a' t ∧ (c.maxTotalWaitMs : Int) - (t : Int) ≤ 1500) ∨
      (∃ a' t, e = .request a' t ∧ (1500 : Int) < (c.maxTotalWaitMs : Int) - (t : Int)) ∨
      (∃ a', e = .sleepBackoff a' (c.retryBaseMs * 2 ^ (a' - 1))) := by
  induction fuel generalizing a now le with
  | zero => simp [genLoop]
  | succ f ih =>
    intro e he
    simp only [genLoop] at he
    split at he
    · next hb =>
      simp only [List.mem_singleton] at he
      exact Or.inl ⟨a, now, he, hb⟩
    · next hb =>
      push_neg at hb
      cases hR : runAttempt c modelId prompt (beh a) with
      | ok info =>
        rw [hR] at he
        dsimp only at he
        simp only [List.mem_singleton] at he
        exact Or.inr (Or.inl ⟨a, now, he, hb⟩)
      | error msg =>
        rw [hR] at he
        dsimp only at he
        split at he
        · dsimp only at he
          simp only [List.mem_singleton] at he
          exact Or.inr (Or.inl ⟨a, now, he, hb⟩)
        · split at he
          · dsimp only at he
            simp only [List.mem_singleton] at he
            exact Or.inr (Or.inl ⟨a, now, he, hb⟩)
          · split at he
            · dsimp only at he
              simp only [List.mem_singleton] at he
              exact Or.inr (Or.inl ⟨a, now, he, hb⟩)
            · dsimp only at he
              simp only [List.mem_cons] at he
              rcases he with he | he | he
              · exact Or.inr (Or.inl ⟨a, now, he, hb⟩)
              · exact Or.inr (Or.inr ⟨a, he⟩)
              · exact ih _ _ _ e he

theorem genLoop_countRequests_le (c : CopilotClient) (modelId prompt : String)
    (beh : Nat → EndpointResult) (dur : Nat → Nat) (fuel a now : Nat) (le : String) :
    countRequests (genLoop c modelId prompt beh dur fuel a now le).1 ≤ fuel := by
  induction fuel generalizing a now le with
  | zero => exact Nat.le_refl 0
  | succ f ih =>
    simp only [genLoop]
    split
    · exact Nat.zero_le _
    · cases hR : runAttempt c modelId prompt (beh a) with
      | ok info =>
        dsimp only
        exact Nat.succ_le_succ (Nat.zero_le f)
      | error msg =>
        dsimp only
        split
        · exact Nat.succ_le_succ (Nat.zero_le f)
        · split
          · exact Nat.succ_le_succ (Nat.zero_le f)
          · split
            · exact Nat.succ_le_succ (Nat.zero_le f)
            · exact Nat.succ_le_succ
                (ih (a + 1) (now + dur a + c.retryBaseMs * 2 ^ (a - 1)) msg)

theorem genLoop_failed_of_all_fail (c : CopilotClient) (modelId prompt : String)
    (beh : Nat → EndpointResult) (dur : Nat → Nat) (fuel a now : Nat) (le : String)
    (hfail : ∀ a', ∃ m, runAttempt c modelId prompt (beh a') = .error m) :
    ∃ e t, (genLoop c modelId prompt beh dur fuel a now le).2 = .failed e t := by
  induction fuel generalizing a now le with
  | zero => exact ⟨le, now, rfl⟩
  | succ f ih =>
    simp only [genLoop]
    split
    · exact ⟨_, _, rfl⟩
    · obtain ⟨m, hm⟩ := hfail a
      rw [hm]
      dsimp only
      split
      · exact ⟨_, _, rfl⟩
      · split
        · exact ⟨_, _, rfl⟩
        · split
          · exact ⟨_, _, rfl⟩
          · exact ih _ _ _

theorem genLoop_no_log (c : CopilotClient) (modelId prompt : String)
    (beh : Nat → EndpointResult) (dur : Nat → Nat) (fuel a now : Nat) (le : String)
    (r : UsageLogRecord) : GenEvent.log r ∉ (genLoop c modelId prompt beh dur fuel a now le).1 := by
  intro h
  rcases genLoop_events c modelId prompt beh dur fuel a now le _ h with
    ⟨_, _, h', _⟩ | ⟨_, _, h', _⟩ | ⟨_, h'⟩ <;> exact absurd h' (by simp)

theorem countRequests_append (l₁ l₂ : List GenEvent) :
    countRequests (l₁ ++ l₂) = countRequests l₁ + countRequests l₂ := by
  induction l₁ with
  | nil => simp [countRequests]
  | cons e rest ih =>
    cases e <;> simp [countRequests, ih]
    omega

theorem logRecords_append (l₁ l₂ : List GenEvent) :
    logRecords (l₁ ++ l₂) = logRecords l₁ ++ logRecords l₂ := by
  induction l₁ with
  | nil => simp [logRecords]
  | cons e rest ih => cases e <;> simp [logRecords, ih]

theorem logRecords_nil_of_no_log (l : List GenEvent)
    (h : ∀ r, GenEvent.log r ∉ l) : logRecords l = [] := by
  induction l with
  | nil => rfl
  | cons e rest ih =>
    cases e with
    | log r => exact absurd (List.mem_cons_self _ _) (h r)
    | budgetStop a t =>
      exact ih fun r hr => h r (List.mem_cons_of_mem _ hr)
    | request a t =>
      exact ih fun r hr => h r (List.mem_cons_of_mem _ hr)
    | sleepBackoff a ms =>
      exact ih fun r hr => h r (List.mem_cons_of_mem _ hr)

/-- C1: for every endpoint behaviour in which each request attempt fails with
a retryable error, `generateReply` terminates by raising an error, makes at
most `maxRetries` attempts, every attempt is started only while the remaining
wall-clock budget exceeds the 1500 ms safety margin (the pre-attempt
fail-fast check only fires when the remaining budget is at or below it), and
every backoff sleep between attempts lasts exactly
`retryBaseMs * 2 ^ (attempt - 1)` milliseconds.  Termination itself is
witnessed by `generateReply` being a total function of the bounded retry
loop. -/
theorem C1_retry_budget_termination (c : CopilotClient) (p : GenerateReplyParams)
    (beh : Nat → EndpointResult) (dur : Nat → Nat)
    (henabled : c.apiKey ≠ "")
    (hfail : ∀ a, ∃ m,
      runAttempt c (resolvedModelId c p) (fullPrompt p) (beh a) = Except.error m ∧
      isNonRetryMarker m = false) :
    (∃ msg, (generateReply c p beh dur).2 = GenResult.error msg) ∧
    countRequests (generateReply c p beh dur).1 ≤ c.maxRetries ∧
    (∀ a ms, GenEvent.sleepBackoff a ms ∈ (generateReply c p beh dur).1 →
      ms = c.retryBaseMs * 2 ^ (a - 1)) ∧
    (∀ a t, GenEvent.request a t ∈ (generateReply c p beh dur).1 →
      (1500 : Int) < (c.maxTotalWaitMs : Int) - (t : Int)) ∧
    (∀ a t, GenEvent.budgetStop a t ∈ (generateReply c p beh dur).1 →
      (c.maxTotalWaitMs : Int) - (t : Int) ≤ 1500) := by
  have hfail' : ∀ a, ∃ m,
      runAttempt c (resolvedModelId c p) (fullPrompt p) (beh a) = Except.error m :=
    fun a => ⟨(hfail a).choose, (hfail a).choose_spec.1⟩
  obtain ⟨e, t, hexit⟩ := genLoop_failed_of_all_fail c (resolvedModelId c p)
    (fullPrompt p) beh dur c.maxRetries 1 0 "unknown error" hfail'
  unfold generateReply
  rw [if_neg henabled]
  dsimp only
  rw [hexit]
  dsimp only
  refine ⟨⟨_, rfl⟩, ?_, ?_, ?_, ?_⟩
  · rw [countRequests_append]
    have h1 := genLoop_countRequests_le c (resolvedModelId c p) (fullPrompt p)
      beh dur c.maxRetries 1 0 "unknown error"
    have h2 : countRequests [GenEvent.log
        { modelId := resolvedModelId c p, topic := p.topic, agent := p.agent,
          status := .failure, attempt := c.maxRetries, latencyMs := t,
          promptTokens := 0, completionTokens := 0, totalTokens := 0,
          requestId := none, error := some e }] = 0 := rfl
    omega
  · intro a ms hmem
    rcases List.mem_append.1 hmem with hmem | hmem
    · rcases genLoop_events c (resolvedModelId c p) (fullPrompt p) beh dur
        c.maxRetries 1 0 "unknown error" _ hmem with
        ⟨_, _, h', _⟩ | ⟨_, _, h', _⟩ | ⟨a', h'⟩
      · exact absurd h' (by simp)
      · exact absurd h' (by simp)
      · cases h'
        rfl
    · simp only [List.mem_singleton] at hmem
      exact absurd hmem (by simp)
  · intro a t' hmem
    rcases List.mem_append.1 hmem with hmem | hmem
    · rcases genLoop_events c (resolvedModelId c p) (fullPrompt p) beh dur
        c.maxRetries 1 0 "unknown error" _ hmem with
        ⟨_, _, h', _⟩ | ⟨a', t'', h', hb⟩ | ⟨a', h'⟩
      · exact absurd h' (by simp)
      · cases h'
        exact hb
      · exact absurd h' (by simp)
    · simp only [List.mem_singleton] at hmem
      exact absurd hmem (by simp)
  · intro a t' hmem
    rcases List.mem_append.1 hmem with hmem | hmem
    · rcases genLoop_events c (resolvedModelId c p) (fullPrompt p) beh dur
        c.maxRetries 1 0 "unknown error" _ hmem with
        ⟨a', t'', h', hb⟩ | ⟨_, _, h', _⟩ | ⟨a', h'⟩
      · cases h'
        exact hb
      · exact absurd h' (by simp)
      · exact absurd h' (by simp)
    · simp only [List.mem_singleton] at hmem
      exact absurd hmem (by simp)

/-- C1 witness: the always-timing-out endpoint against the default
configuration raises and stays within the attempt budget. -/
theorem C1_witness :
    (∃ msg, (generateReply cl₀ p₀ behTimeout durZero).2 = GenResult.error msg) ∧
    countRequests (generateReply cl₀ p₀ behTimeout durZero).1 ≤ cl₀.maxRetries := by
  have h := C1_retry_budget_termination cl₀ p₀ behTimeout durZero (by decide)
    (fun a => ⟨"connect ETIMEDOUT", rfl, by decide⟩)
  exact ⟨h.1, h.2.1⟩

theorem genLoop_first_marker (c : CopilotClient) (mid pr : String)
    (beh : Nat → EndpointResult) (dur : Nat → Nat) (fuel a now : Nat) (le : String)
    (hfuel : 1 ≤ fuel)
    (hbudget : 1500 < (c.maxTotalWaitMs : Int) - (now : Int))
    (e : String) (hRA : runAttempt c mid pr (beh a) = .error e)
    (hm : isNonRetryMarker e = true) :
    genLoop c mid pr beh dur fuel a now le =
      ([.request a now], .failed e (now + dur a)) := by
  obtain ⟨f, rfl⟩ : ∃ f, fuel = f + 1 := ⟨fuel - 1, by omega⟩
  simp only [genLoop]
  rw [if_neg (by omega)]
  rw [hRA]
  dsimp only
  rw [if_pos hm]

theorem genLoop_request_head (c : CopilotClient) (mid pr : String)
    (beh : Nat → EndpointResult) (dur : Nat → Nat) (f a now : Nat) (le : String)
    (hbudget : 1500 < (c.maxTotalWaitMs : Int) - (now : Int)) :
    GenEvent.request a now ∈ (genLoop c mid pr beh dur (f + 1) a now le).1 := by
  simp only [genLoop]
  rw [if_neg (by omega)]
  cases hR : runAttempt c mid pr (beh a) with
  | ok info =>
    dsimp only
    exact List.mem_singleton_self _
  | error msg =>
    dsimp only
    split
    · exact List.mem_singleton_self _
    · split
      · exact List.mem_singleton_self _
      · split
        · exact List.mem_singleton_self _
        · exact List.mem_cons_self _ _

theorem genLoop_second_request (c : CopilotClient) (mid pr : String)
    (beh : Nat → EndpointResult) (dur : Nat → Nat) (f a now : Nat) (le : String)
    (hbudget1 : 1500 < (c.maxTotalWaitMs : Int) - (now : Int))
    (msg : String) (hRA : runAttempt c mid pr (beh a) = .error msg)
    (hmark : isNonRetryMarker msg = false)
    (hlt : a < c.maxRetries)
    (hbudget2 : 1500 < (c.maxTotalWaitMs : Int)
      - ((now + dur a + c.retryBaseMs * 2 ^ (a - 1) : Nat) : Int)) :
    GenEvent.request (a + 1) (now + dur a + c.retryBaseMs * 2 ^ (a - 1)) ∈
      (genLoop c mid pr beh dur (f + 1 + 1) a now le).1 := by
  simp only [genLoop]
  rw [if_neg (by omega)]
  rw [hRA]
  dsimp only
  rw [if_neg (by simp [hmark]), if_neg (by omega),
    if_neg (by push_cast at hbudget2 ⊢; omega)]
  exact List.mem_cons_of_mem _ (List.mem_cons_of_mem _
    (genLoop_request_head c mid pr beh dur f (a + 1)
      (now + dur a + c.retryBaseMs * 2 ^ (a - 1)) msg hbudget2))

/-- C2 (amended): a response classified non-retryable on the first attempt is
not retried — exactly one request, one terminal usage record with status
failure carrying the reason, and the raised error surfaces it; and a failure
whose error message does not contain the non-retryable markers IS retried
when attempts and wall-clock budget remain.  (The retry decision is made by
scanning the caught error message for the markers, not by re-running the
classification.) -/
theorem C2_nonretryable_short_circuit (c : CopilotClient) (p : GenerateReplyParams)
    (dur : Nat → Nat) (henabled : c.apiKey ≠ "") (hmr : 1 ≤ c.maxRetries)
    (hbudget : 1500 < c.maxTotalWaitMs) :
    (∀ (beh : Nat → EndpointResult) (e : String),
      classifyNonRetryable c (resolvedModelId c p) (beh 1) = some e →
      countRequests (generateReply c p beh dur).1 = 1 ∧
      (∃ r, logRecords (generateReply c p beh dur).1 = [r] ∧
        r.status = .failure ∧ r.error = some e) ∧
      (generateReply c p beh dur).2 =
        GenResult.error ("Copilot generation failed after " ++ toString c.maxRetries
          ++ " attempts: " ++ e)) ∧
    (∀ (beh : Nat → EndpointResult) (msg : String),
      runAttempt c (resolvedModelId c p) (fullPrompt p) (beh 1) = Except.error msg →
      isNonRetryMarker msg = false →
      2 ≤ c.maxRetries →
      (dur 1 : Int) + (c.retryBaseMs : Int) + 1500 < (c.maxTotalWaitMs : Int) →
      ∃ t, GenEvent.request 2 t ∈ (generateReply c p beh dur).1) := by
  constructor
  · intro beh e hcls
    obtain ⟨hRA, hm⟩ := runAttempt_of_classify c (resolvedModelId c p) (fullPrompt p)
      (beh 1) e hcls
    have key := genLoop_first_marker c (resolvedModelId c p) (fullPrompt p) beh dur
      c.maxRetries 1 0 "unknown error" hmr (by omega) e hRA hm
    unfold generateReply
    rw [if_neg henabled]
    dsimp only
    rw [key]
    dsimp only
    exact ⟨rfl, ⟨_, rfl, rfl, rfl⟩, rfl⟩
  · intro beh msg hRA hmark h2 hbud
    obtain ⟨f, hf⟩ : ∃ f, c.maxRetries = f + 1 + 1 := ⟨c.maxRetries - 2, by omega⟩
    have hp : c.retryBaseMs * 2 ^ (1 - 1) = c.retryBaseMs := by norm_num
    have hmem := genLoop_second_request c (resolvedModelId c p) (fullPrompt p) beh dur
      f 1 0 "unknown error" (by omega) msg hRA hmark (by omega)
      (by rw [hp]; push_cast; omega)
    refine ⟨0 + dur 1 + c.retryBaseMs * 2 ^ (1 - 1), ?_⟩
    unfold generateReply
    rw [if_neg henabled]
    dsimp only
    rw [hf]
    cases hexit : (genLoop c (resolvedModelId c p) (fullPrompt p) beh dur
      (f + 1 + 1) 1 0 "unknown error").2 with
    | succeeded a' fin info =>
      dsimp only
      exact List.mem_append_left _ hmem
    | failed le' fin =>
      dsimp only
      exact List.mem_append_left _ hmem

/-- C2 witness: the auth-permission-denied endpoint yields exactly one
attempt and one failure usage record, and the marker-free 500 endpoint is
retried (a second attempt occurs). -/
theorem C2_witness :
    countRequests (generateReply cl₀ p₀ behAuth durZero).1 = 1 ∧
    (∃ r, logRecords (generateReply cl₀ p₀ behAuth durZero).1 = [r] ∧
      r.status = .failure ∧ r.error = some authErrMsg) ∧
    (∃ t, GenEvent.request 2 t ∈ (generateReply cl₀ p₀ beh500 durZero).1) := by
  have h := C2_nonretryable_short_circuit cl₀ p₀ durZero (by decide) (by decide) (by decide)
  have hA := h.1 behAuth authErrMsg (by decide)
  have hB := h.2 beh500 "Copilot completion failed: 500 internal server error"
    rfl (by decide) (by decide) (by decide)
  exact ⟨hA.1, hA.2.1, hB⟩

/-- C2 counterexample: the final clause of the claim — "all other failures
(timeouts, 5xx, network errors) are retried up to the attempt budget" — is
false as stated: a 500 response whose body happens to contain the text
"non-retryable" is not retried.  With `maxRetries = 3` and the untouched
70000 ms budget, exactly one attempt is made. -/
theorem C2_counterexample :
    countRequests (generateReply cl₀ p₀ behMarker500 durZero).1 = 1 ∧
    cl₀.maxRetries = 3 := by
  exact ⟨rfl, rfl⟩

theorem countRequests_log (r : UsageLogRecord) :
    countRequests [GenEvent.log r] = 0 := rfl

theorem genLoop_succeeded_count (c : CopilotClient) (mid pr : String)
    (beh : Nat → EndpointResult) (dur : Nat → Nat) (fuel a now : Nat) (le : String)
    (a' fin : Nat) (info : CompletionSuccess)
    (h : (genLoop c mid pr beh dur fuel a now le).2 = .succeeded a' fin info) :
    countRequests (genLoop c mid pr beh dur fuel a now le).1 = a' - a + 1 ∧ a ≤ a' := by
  induction fuel generalizing a now le with
  | zero => exact absurd h (by simp [genLoop])
  | succ f ih =>
    simp only [genLoop] at h ⊢
    split at h
    · exact absurd h (by simp)
    · next hb =>
      rw [if_neg hb]
      cases hR : runAttempt c mid pr (beh a) with
      | ok info₂ =>
        rw [hR] at h
        dsimp only at h ⊢
        have ha : a = a' := by
          cases h
          rfl
        have hcr : countRequests [GenEvent.request a now] = 1 := rfl
        constructor
        · omega
        · omega
      | error msg =>
        rw [hR] at h
        dsimp only at h ⊢
        split at h
        · exact absurd h (by simp)
        · next hm =>
          split at h
          · exact absurd h (by simp)
          · next hle =>
            split at h
            · exact absurd h (by simp)
            · next hbo =>
              rw [if_neg hm, if_neg hle, if_neg hbo]
              obtain ⟨hc, hle'⟩ := ih _ _ _ h
              have he : countRequests (GenEvent.request a now ::
                  GenEvent.sleepBackoff a (c.retryBaseMs * 2 ^ (a - 1)) ::
                  (genLoop c mid pr beh dur f (a + 1)
                    (now + dur a + c.retryBaseMs * 2 ^ (a - 1)) msg).1) =
                  countRequests (genLoop c mid pr beh dur f (a + 1)
                    (now + dur a + c.retryBaseMs * 2 ^ (a - 1)) msg).1 + 1 := rfl
              dsimp only
              constructor
              · omega
              · omega

/-- C5 (amended): every terminal outcome of `generateReply` (the call being
enabled) writes exactly one usage record; on success the record has status
success and its attempt field is the attempt that succeeded (the number of
requests made); on failure the record has status failure, zero token counts,
and its attempt field is always the configured `maxRetries` — which equals
the final attempt actually reached only when retries were exhausted. -/
theorem C5_usage_record (c : CopilotClient) (p : GenerateReplyParams)
    (beh : Nat → EndpointResult) (dur : Nat → Nat) (henabled : c.apiKey ≠ "") :
    ∃ r, logRecords (generateReply c p beh dur).1 = [r] ∧
      (∀ text, (generateReply c p beh dur).2 = GenResult.ok text →
        r.status = .success ∧ r.attempt = countRequests (generateReply c p beh dur).1) ∧
      (∀ msg, (generateReply c p beh dur).2 = GenResult.error msg →
        r.status = .failure ∧ r.attempt = c.maxRetries ∧
        r.promptTokens = 0 ∧ r.completionTokens = 0 ∧ r.totalTokens = 0) := by
  unfold generateReply
  rw [if_neg henabled]
  dsimp only
  cases hexit : (genLoop c (resolvedModelId c p) (fullPrompt p) beh dur
    c.maxRetries 1 0 "unknown error").2 with
  | succeeded a' fin info =>
    dsimp only
    refine ⟨{ modelId := resolvedModelId c p, topic := p.topic, agent := p.agent,
              status := .success, attempt := a', latencyMs := fin,
              promptTokens := info.promptTokens,
              completionTokens := info.completionTokens,
              totalTokens := info.totalTokens,
              requestId := info.requestId, error := none }, ?_, ?_, ?_⟩
    · rw [logRecords_append, logRecords_nil_of_no_log _
        (fun r => genLoop_no_log c (resolvedModelId c p) (fullPrompt p) beh dur
          c.maxRetries 1 0 "unknown error" r)]
      rfl
    · intro text _
      refine ⟨rfl, ?_⟩
      obtain ⟨hc, h1⟩ := genLoop_succeeded_count c (resolvedModelId c p) (fullPrompt p)
        beh dur c.maxRetries 1 0 "unknown error" a' fin info hexit
      rw [countRequests_append, countRequests_log]
      dsimp only
      omega
    · intro msg hmsg
      exact absurd hmsg (by simp)
  | failed le' fin =>
    dsimp only
    refine ⟨{ modelId := resolvedModelId c p, topic := p.topic, agent := p.agent,
              status := .failure, attempt := c.maxRetries, latencyMs := fin,
              promptTokens := 0, completionTokens := 0, totalTokens := 0,
              requestId := none, error := some le' }, ?_, ?_, ?_⟩
    · rw [logRecords_append, logRecords_nil_of_no_log _
        (fun r => genLoop_no_log c (resolvedModelId c p) (fullPrompt p) beh dur
          c.maxRetries 1 0 "unknown error" r)]
      rfl
    · intro text htext
      exact absurd htext (by simp)
    · intro msg _
      exact ⟨rfl, rfl, rfl, rfl, rfl⟩

/-- C5 witness: a first-attempt success writes one success record whose
attempt field is 1, the attempt that succeeded. -/
theorem C5_witness :
    ∃ r, logRecords (generateReply cl₀ p₀ behOkFirst durZero).1 = [r] ∧
      r.status = .success ∧ r.attempt = 1 := by
  obtain ⟨r, h1, h2, _⟩ := C5_usage_record cl₀ p₀ behOkFirst durZero (by decide)
  have hok : (generateReply cl₀ p₀ behOkFirst durZero).2 = GenResult.ok "the answer" := by
    decide
  obtain ⟨hs, ha⟩ := h2 _ hok
  refine ⟨r, h1, hs, ?_⟩
  rw [ha]
  decide

/-- C5 counterexample: the claim "the attempt number recorded in that record
is the final attempt actually reached" is false for failure records.  A
non-retryable auth failure on the first attempt makes exactly one request,
yet the failure usage record carries attempt = 3 (the configured
`maxRetries`), because the source hard-codes `attempt: this.maxRetries` in
the failure record. -/
theorem C5_counterexample :
    countRequests (generateReply cl₀ p₀ behAuth durZero).1 = 1 ∧
    (∃ r, logRecords (generateReply cl₀ p₀ behAuth durZero).1 = [r] ∧
      r.status = .failure ∧ r.attempt = 3) := by
  exact ⟨rfl, ⟨_, rfl, rfl, rfl⟩⟩

/-! ## Rate limiter -/

/-- C3: for two consecutive calls with the same `(chatId, topic)` key the
second caller proceeds no earlier than the minimum interval after the first
recorded time of the first call; the first call records its proceed time as
the new last-call timestamp of the key; a call never changes the entry of
another key nor the
wait of a caller with a different key; and a configured interval of zero
returns immediately without waiting or recording. -/
theorem C3_rate_limiter (minInterval : Nat) (m : String → Option Nat)
    (chatId : Int) (topic : String) (chatId' : Int) (topic' : String)
    (now now₂ now' : Nat)
    (hmi : minInterval ≠ 0) :
    (enforceCopilotRateLimit minInterval m chatId topic now).1 + minInterval ≤
      (enforceCopilotRateLimit minInterval
        (enforceCopilotRateLimit minInterval m chatId topic now).2 chatId topic now₂).1 ∧
    (enforceCopilotRateLimit minInterval m chatId topic now).2 (copilotRateKey chatId topic) =
      some (enforceCopilotRateLimit minInterval m chatId topic now).1 ∧
    (copilotRateKey chatId' topic' ≠ copilotRateKey chatId topic →
      (enforceCopilotRateLimit minInterval
          (enforceCopilotRateLimit minInterval m chatId topic now).2 chatId' topic' now').1 =
        (enforceCopilotRateLimit minInterval m chatId' topic' now').1 ∧
      (enforceCopilotRateLimit minInterval m chatId topic now).2
          (copilotRateKey chatId' topic') = m (copilotRateKey chatId' topic')) ∧
    (∀ (m₀ : String → Option Nat) (c₀ : Int) (t₀ : String) (n₀ : Nat),
      enforceCopilotRateLimit 0 m₀ c₀ t₀ n₀ = (n₀, m₀)) := by
  refine ⟨?_, ?_, ?_, ?_⟩
  · simp only [enforceCopilotRateLimit, if_neg hmi]
    simp
    split_ifs <;> omega
  · simp only [enforceCopilotRateLimit, if_neg hmi]
    simp
  · intro hk
    constructor
    · simp only [enforceCopilotRateLimit, if_neg hmi]
      simp only [if_neg hk]
    · simp only [enforceCopilotRateLimit, if_neg hmi]
      simp only [if_neg hk]
  · intro m₀ c₀ t₀ n₀
    simp [enforceCopilotRateLimit]

/-- C3 witness: concrete back-to-back calls with a 1200 ms interval are
spaced by at least 1200 ms, and interval 0 is a no-op. -/
theorem C3_witness :
    (enforceCopilotRateLimit 1200 (fun _ => none) 1 "default" 5000).1 + 1200 ≤
      (enforceCopilotRateLimit 1200
        (enforceCopilotRateLimit 1200 (fun _ => none) 1 "default" 5000).2
        1 "default" 5100).1 ∧
    enforceCopilotRateLimit 0 (fun _ => none) 1 "default" 4242 =
      (4242, fun _ => none) := by
  have h := C3_rate_limiter 1200 (fun _ => none) 1 "default" 2 "default"
    5000 5100 5100 (by decide)
  exact ⟨h.1, h.2.2.2 (fun _ => none) 1 "default" 4242⟩

/-! ## Daemon polling loop -/

theorem processUpdates_no_persist (off : Int) (us : List TUpdate) (n : Int) :
    DaemonEvent.persist n ∉ (processUpdates off us).1 := by
  induction us generalizing off with
  | nil => simp [processUpdates]
  | cons u rest ih =>
    simp only [processUpdates]
    intro hmem
    rcases List.mem_cons.1 hmem with h1 | hmem
    · split at h1 <;> simp at h1
    · rcases List.mem_cons.1 hmem with h2 | hmem
      · simp at h2
      · exact ih _ hmem

theorem processUpdates_advance (off : Int) (us : List TUpdate) :
    AdvanceAfterProcessing off (processUpdates off us).1 := by
  induction us generalizing off with
  | nil => simp [processUpdates, AdvanceAfterProcessing]
  | cons u rest ih =>
    simp only [processUpdates]
    split
    · exact ⟨rfl, ih _⟩
    · exact ⟨rfl, ih _⟩

theorem processUpdates_monotone (off : Int) (us : List TUpdate) :
    off ≤ (processUpdates off us).2 := by
  induction us generalizing off with
  | nil => exact le_refl _
  | cons u rest ih =>
    simp only [processUpdates]
    exact le_trans (le_max_left _ _) (ih _)

theorem storedOffsetAfter_no_persist (stored : Int) (l : List DaemonEvent)
    (h : ∀ n, DaemonEvent.persist n ∉ l) : storedOffsetAfter stored l = stored := by
  induction l with
  | nil => rfl
  | cons e rest ih =>
    cases e with
    | persist n => exact absurd (List.mem_cons_self _ _) (h n)
    | process uid => exact ih fun n hn => h n (List.mem_cons_of_mem _ hn)
    | skip uid => exact ih fun n hn => h n (List.mem_cons_of_mem _ hn)
    | advance o => exact ih fun n hn => h n (List.mem_cons_of_mem _ hn)

/-- C4: in one iteration of the polling loop on a non-empty batch, the
`setOffset` persist happens exactly once and only as the very last event —
never before or mid-batch; the preceding trace advances the in-memory
watermark to `max(current, update_id + 1)` only immediately after each
update has been processed; the watermark never decreases; and at every
crash point before the final persist the durably stored offset is unchanged,
so a restart re-fetches from the old offset and reprocesses the batch
(at-least-once delivery). -/
theorem C4_offset_discipline (offset stored : Int) (updates : List TUpdate)
    (h : updates ≠ []) :
    ∃ body,
      (daemonIteration offset updates).1 =
        body ++ [DaemonEvent.persist (daemonIteration offset updates).2] ∧
      (∀ n, DaemonEvent.persist n ∉ body) ∧
      AdvanceAfterProcessing offset body ∧
      offset ≤ (daemonIteration offset updates).2 ∧
      (∀ pre, pre <+: body → storedOffsetAfter stored pre = stored) := by
  unfold daemonIteration
  rw [if_neg (fun hc => h (List.isEmpty_iff.mp hc))]
  dsimp only
  refine ⟨(processUpdates offset updates).1, rfl,
    fun n => processUpdates_no_persist offset updates n,
    processUpdates_advance offset updates,
    processUpdates_monotone offset updates, ?_⟩
  intro pre hpre
  apply storedOffsetAfter_no_persist
  intro n hn
  obtain ⟨tail, htail⟩ := hpre
  exact processUpdates_no_persist offset updates n (htail ▸ List.mem_append_left _ hn)

/-- C4 witness: a concrete two-update batch from offset 5. -/
theorem C4_witness :
    ∃ body,
      (daemonIteration 5 updates₀).1 =
        body ++ [DaemonEvent.persist (daemonIteration 5 updates₀).2] ∧
      (∀ n, DaemonEvent.persist n ∉ body) ∧
      AdvanceAfterProcessing 5 body ∧
      5 ≤ (daemonIteration 5 updates₀).2 ∧
      (∀ pre, pre <+: body → storedOffsetAfter 0 pre = 0) :=
  C4_offset_discipline 5 0 updates₀ (by decide)

/-! ## Model catalog -/

/-- C10: the catalog is never empty once constructed: `load` falls back to
the built-in defaults when the file is missing, has no models array, or no
valid entries; `replaceWithModelIds` is a no-op when the id list normalizes
to nothing and otherwise rebuilds a non-empty list; hence `list()` is always
non-empty and `findById` succeeds for some id. -/
theorem C10_catalog_nonempty :
    (∀ f : CatalogFile, ModelCatalog.load f ≠ []) ∧
    (∀ (models : List CopilotModelInfo) (ids : List String),
      dedupKeepFirst ((ids.map trimStr).filter fun s => s ≠ "") = [] →
      ModelCatalog.replaceWithModelIds models ids = models) ∧
    (∀ (models : List CopilotModelInfo) (ids : List String),
      models ≠ [] → ModelCatalog.replaceWithModelIds models ids ≠ []) ∧
    (∀ models : List CopilotModelInfo, models ≠ [] →
      ∃ modelId mi, ModelCatalog.findById models modelId = some mi) := by
  refine ⟨?_, ?_, ?_, ?_⟩
  · intro f
    cases f with
    | missing => decide
    | parsed o =>
      cases o with
      | none => decide
      | some ms =>
        simp only [ModelCatalog.load]
        split
        · decide
        · split
          · decide
          · next hvalid =>
            simpa using hvalid
  · intro models ids hnorm
    simp only [ModelCatalog.replaceWithModelIds]
    rw [hnorm]
    rfl
  · intro models ids hne
    simp only [ModelCatalog.replaceWithModelIds]
    split
    · exact hne
    · next hnorm =>
      simp only [ne_eq, List.map_eq_nil_iff]
      simpa using hnorm
  · intro models hne
    cases models with
    | nil => exact absurd rfl hne
    | cons mi rest =>
      refine ⟨mi.id, mi, ?_⟩
      simp [ModelCatalog.findById]

/-! ## Command parsing and handler lemmas -/

theorem parse_model_eq (input : Option String) (cfg : AppConfig)
    (ct ca cm : Option String) (mid : String)
    (h1 : matchStart (trimStr (input.getD "")) = false)
    (h2 : matchExactCI "/models" (trimStr (input.getD "")) = false)
    (h3 : matchCmdArg "/model" isModelArgChar 64 (trimStr (input.getD "")) = some mid) :
    parseTelegramText input cfg ct ca cm =
      { baseParsed (ct.getD cfg.defaultTopic) (ca.getD cfg.defaultAgent) mid
          ("Model changed to " ++ mid) with command := some .model } := by
  simp only [parseTelegramText, h1, h2, h3]
  rfl

theorem parse_freeform_eq (input : Option String) (cfg : AppConfig)
    (ct ca cm : Option String)
    (h : NoCommandMatch (trimStr (input.getD ""))) :
    parseTelegramText input cfg ct ca cm =
      baseParsed (ct.getD cfg.defaultTopic) (ca.getD cfg.defaultAgent)
        (cm.getD cfg.defaultModel) (trimStr (input.getD "")) := by
  obtain ⟨h1, h2, h3, h4, h5, h6, h7, h8, h9, h10⟩ := h
  simp only [parseTelegramText, h1, h2, h3, h4, h5, h6, h7, h8, h9, h10]
  rfl

/-- C10 witness: concrete instances of each conjunct. -/
theorem C10_witness :
    ModelCatalog.load CatalogFile.missing ≠ [] ∧
    ModelCatalog.replaceWithModelIds DEFAULT_MODELS ["  ", ""] = DEFAULT_MODELS ∧
    ModelCatalog.replaceWithModelIds DEFAULT_MODELS ["gpt-4o", "o3-mini"] ≠ [] ∧
    (∃ modelId mi, ModelCatalog.findById DEFAULT_MODELS modelId = some mi) := by
  have h := C10_catalog_nonempty
  exact ⟨h.1 _, h.2.1 _ _ (by decide), h.2.2.1 _ _ (by decide), h.2.2.2 _ (by decide)⟩

/-- C6: three-tier model resolution.  A valid `/model <id>` command persists
the id into Topic State under the current topic of the thread; a subsequent
free-form message (through the same profile/selected-model reads the handler
performs) resolves its `modelId` to that stored value; and for a thread whose
selected model was never set, resolution falls back to the configured default
model.  (The `SessionStore` wrappers are modelled from the spec, see their
definitions.) -/
theorem C6_three_tier (store : SessionStore) (catalog : List CopilotModelInfo)
    (cfg : AppConfig) (chatId : Int) (cmdText freeText mid : String)
    (mi : CopilotModelInfo)
    (hvalid : ModelCatalog.findById catalog mid = some mi)
    (h1 : matchStart (trimStr cmdText) = false)
    (h2 : matchExactCI "/models" (trimStr cmdText) = false)
    (h3 : matchCmdArg "/model" isModelArgChar 64 (trimStr cmdText) = some mid)
    (hfree : NoCommandMatch (trimStr freeText)) :
    ((handleMessage3 store catalog cfg chatId cmdText).2).topicState chatId
        (store.getCurrentProfile cfg.defaultTopic cfg chatId).1 selectedModelKey =
      some mid ∧
    (parseTelegramText (some freeText) cfg
        (some (((handleMessage3 store catalog cfg chatId cmdText).2).getCurrentProfile
          cfg.defaultTopic cfg chatId).1)
        (some (((handleMessage3 store catalog cfg chatId cmdText).2).getCurrentProfile
          cfg.defaultTopic cfg chatId).2)
        (some (((handleMessage3 store catalog cfg chatId cmdText).2).getSelectedModel cfg
          chatId
          (((handleMessage3 store catalog cfg chatId cmdText).2).getCurrentProfile
            cfg.defaultTopic cfg chatId).1))).modelId = mid ∧
    (store.topicState chatId (store.getCurrentProfile cfg.defaultTopic cfg chatId).1
        selectedModelKey = none →
      (parseTelegramText (some freeText) cfg
        (some (store.getCurrentProfile cfg.defaultTopic cfg chatId).1)
        (some (store.getCurrentProfile cfg.defaultTopic cfg chatId).2)
        (some (store.getSelectedModel cfg chatId
          (store.getCurrentProfile cfg.defaultTopic cfg chatId).1))).modelId =
        cfg.defaultModel) := by
  have hparse := parse_model_eq (some cmdText) cfg
    (some (store.getCurrentProfile cfg.defaultTopic cfg chatId).1)
    (some (store.getCurrentProfile cfg.defaultTopic cfg chatId).2)
    (some (store.getSelectedModel cfg chatId
      (store.getCurrentProfile cfg.defaultTopic cfg chatId).1))
    mid h1 h2 h3
  refine ⟨?_, ?_, ?_⟩
  · simp only [handleMessage3]
    rw [hparse]
    dsimp only [baseParsed]
    rw [hvalid]
    simp [SessionStore.append, SessionStore.setSelectedModel, SessionStore.setTopicState]
  · have hprofile : ((handleMessage3 store catalog cfg chatId cmdText).2).getCurrentProfile
        cfg.defaultTopic cfg chatId =
        store.getCurrentProfile cfg.defaultTopic cfg chatId := by
      simp only [handleMessage3]
      rw [hparse]
      dsimp only [baseParsed]
      rw [hvalid]
      rfl
    have hsel : ((handleMessage3 store catalog cfg chatId cmdText).2).getSelectedModel cfg
        chatId (store.getCurrentProfile cfg.defaultTopic cfg chatId).1 = mid := by
      simp only [handleMessage3]
      rw [hparse]
      dsimp only [baseParsed]
      rw [hvalid]
      simp [SessionStore.getSelectedModel, SessionStore.append,
        SessionStore.setSelectedModel, SessionStore.setTopicState]
    rw [hprofile, hsel, parse_freeform_eq (some freeText) cfg _ _ _ hfree]
    rfl
  · intro hunset
    have hdef : store.getSelectedModel cfg chatId
        (store.getCurrentProfile cfg.defaultTopic cfg chatId).1 = cfg.defaultModel := by
      simp [SessionStore.getSelectedModel, hunset]
    rw [hdef, parse_freeform_eq (some freeText) cfg _ _ _ hfree]
    rfl

/-- C6 witness: `/model gpt-4o-mini` then the free-form message "hello"
against an empty store, plus the never-set fallback. -/
theorem C6_witness :
    ((handleMessage3 emptyStore DEFAULT_MODELS cfg₀ 1 "/model gpt-4o-mini").2).topicState 1
        (emptyStore.getCurrentProfile cfg₀.defaultTopic cfg₀ 1).1 selectedModelKey =
      some "gpt-4o-mini" ∧
    (parseTelegramText (some "hello") cfg₀
        (some (((handleMessage3 emptyStore DEFAULT_MODELS cfg₀ 1 "/model gpt-4o-mini").2).getCurrentProfile
          cfg₀.defaultTopic cfg₀ 1).1)
        (some (((handleMessage3 emptyStore DEFAULT_MODELS cfg₀ 1 "/model gpt-4o-mini").2).getCurrentProfile
          cfg₀.defaultTopic cfg₀ 1).2)
        (some (((handleMessage3 emptyStore DEFAULT_MODELS cfg₀ 1 "/model gpt-4o-mini").2).getSelectedModel
          cfg₀ 1
          (((handleMessage3 emptyStore DEFAULT_MODELS cfg₀ 1 "/model gpt-4o-mini").2).getCurrentProfile
            cfg₀.defaultTopic cfg₀ 1).1))).modelId = "gpt-4o-mini" := by
  have h := C6_three_tier emptyStore DEFAULT_MODELS cfg₀ 1 "/model gpt-4o-mini" "hello"
    "gpt-4o-mini"
    { id := "gpt-4o-mini", name := "GPT-4o Mini", provider := "OpenAI",
      pricing := "按 GitHub Copilot 订阅计划计费；模型单独加价请以官方公告为准。",
      referenceUrl := some "https://github.com/features/copilot" }
    (by decide) (by decide) (by decide) (by decide)
    (by unfold NoCommandMatch; decide)
  exact ⟨h.1, h.2.1⟩

/-- C7 (amended): the state-mutating commands behave as follows — the
topic/agent/mode branch appends the system-role audit message and echoes it;
a valid model select persists the selection, appends the audit message and
confirms; a valid language select persists the language to Topic State and
confirms, but appends NO system-role audit message. -/
theorem C7_state_mutating_commands (store : SessionStore)
    (catalog : List CopilotModelInfo) (chatId : Int)
    (topic agent text mid lang : String) (mi : CopilotModelInfo)
    (lv : UiLanguage)
    (hvalid : ModelCatalog.findById catalog mid = some mi)
    (hlang : trimStr lang ≠ "")
    (hparse : parseLanguageInput (some (trimStr lang)) = some lv) :
    handleTopicAgentModeCommand4 store chatId topic agent text =
      (Action.appendMsg ⟨chatId, topic, .system, agent, text⟩ ::
         sendChunksActions chatId text,
       store.append ⟨chatId, topic, .system, agent, text⟩) ∧
    (∃ confirmActs store₂,
      handleModelCommand4 store catalog chatId topic agent mid =
        (Action.setSelectedModel chatId topic mid ::
         Action.appendMsg ⟨chatId, topic, .system, agent, "Model changed to " ++ mid⟩ ::
         confirmActs, store₂) ∧
      store₂.topicState chatId topic selectedModelKey = some mid ∧
      (∀ a ∈ confirmActs, ∃ txt, a = Action.sendMessage chatId txt)) ∧
    (∃ confirmActs,
      handleLanguageCommand store chatId topic (some lang) =
        (Action.setTopicState chatId topic UI_LANGUAGE_KEY (uiLanguageString lv) ::
           confirmActs,
         store.setTopicState chatId topic UI_LANGUAGE_KEY (uiLanguageString lv)) ∧
      (∀ a ∈ confirmActs, ∃ txt, a = Action.sendMessage chatId txt) ∧
      (∀ m, Action.appendMsg m ∉
        (handleLanguageCommand store chatId topic (some lang)).1)) := by
  refine ⟨rfl, ?_, ?_⟩
  · have hrunM : handleModelCommand4 store catalog chatId topic agent mid =
        (Action.setSelectedModel chatId topic mid ::
         Action.appendMsg ⟨chatId, topic, .system, agent, "Model changed to " ++ mid⟩ ::
         sendChunksActions chatId
           (localize ((store.setSelectedModel chatId topic mid).append
               ⟨chatId, topic, .system, agent, "Model changed to " ++ mid⟩) chatId topic
             ("已切换模型为 " ++ mid) ("Model switched to " ++ mid)),
         (store.setSelectedModel chatId topic mid).append
           ⟨chatId, topic, .system, agent, "Model changed to " ++ mid⟩) := by
      simp only [handleModelCommand4]
      rw [hvalid]
    refine ⟨_, _, hrunM, ?_, ?_⟩
    · simp [SessionStore.append, SessionStore.setSelectedModel, SessionStore.setTopicState]
    · intro a ha
      simp only [sendChunksActions, List.mem_map] at ha
      obtain ⟨l, _, hl⟩ := ha
      exact ⟨String.mk l, hl.symm⟩
  · have hrun : handleLanguageCommand store chatId topic (some lang) =
        (Action.setTopicState chatId topic UI_LANGUAGE_KEY (uiLanguageString lv) ::
           sendChunksActions chatId
             (pickLanguageText lv
               ("语言已切换为 " ++ languageLabel lv ++ "。之后 bot 回复与模型输出都将遵循该语言。")
               ("Language switched to " ++ languageLabel lv
                 ++ ". Bot messages and model outputs will follow this setting.")),
         store.setTopicState chatId topic UI_LANGUAGE_KEY (uiLanguageString lv)) := by
      simp only [handleLanguageCommand]
      rw [if_neg (by simpa using hlang)]
      rw [show Option.map trimStr (some lang) = some (trimStr lang) from rfl, hparse]
    refine ⟨_, hrun, ?_, ?_⟩
    · intro a ha
      simp only [sendChunksActions, List.mem_map] at ha
      obtain ⟨l, _, hl⟩ := ha
      exact ⟨String.mk l, hl.symm⟩
    · intro m hm
      rw [hrun] at hm
      rcases List.mem_cons.1 hm with h' | h'
      · exact absurd h' (by simp)
      · simp only [sendChunksActions, List.mem_map] at h'
        obtain ⟨l, _, hl⟩ := h'
        exact absurd hl (by simp)

/-- C7 witness: concrete runs of each branch against the default catalog. -/
theorem C7_witness :
    handleTopicAgentModeCommand4 emptyStore 1 "research" "default" "Topic changed to research" =
      (Action.appendMsg ⟨1, "research", .system, "default", "Topic changed to research"⟩ ::
         sendChunksActions 1 "Topic changed to research",
       emptyStore.append ⟨1, "research", .system, "default", "Topic changed to research"⟩) ∧
    (∃ confirmActs store₂,
      handleModelCommand4 emptyStore DEFAULT_MODELS 1 "default" "default" "gpt-4o" =
        (Action.setSelectedModel 1 "default" "gpt-4o" ::
         Action.appendMsg ⟨1, "default", .system, "default", "Model changed to gpt-4o"⟩ ::
         confirmActs, store₂) ∧
      store₂.topicState 1 "default" selectedModelKey = some "gpt-4o" ∧
      (∀ a ∈ confirmActs, ∃ txt, a = Action.sendMessage 1 txt)) := by
  have h := C7_state_mutating_commands emptyStore DEFAULT_MODELS 1 "default" "default"
    "Topic changed to research" "gpt-4o" "en"
    { id := "gpt-4o", name := "GPT-4o", provider := "OpenAI",
      pricing := "按 GitHub Copilot 订阅计划计费；模型单独加价请以官方公告为准。",
      referenceUrl := some "https://github.com/features/copilot" }
    UiLanguage.en (by decide) (by decide) (by decide)
  exact ⟨rfl, h.2.1⟩

/-- C7 counterexample: the claim "every state-mutating command … appends a
system-role audit message" is false for the language command: `/language en`
persists the language to Topic State yet appends no message at all. -/
theorem C7_counterexample :
    (Action.setTopicState 1 "default" UI_LANGUAGE_KEY "en" ∈
      (handleLanguageCommand emptyStore 1 "default" (some "en")).1) ∧
    (∀ m, Action.appendMsg m ∉
      (handleLanguageCommand emptyStore 1 "default" (some "en")).1) := by
  have hacts : (handleLanguageCommand emptyStore 1 "default" (some "en")).1 =
      [Action.setTopicState 1 "default" UI_LANGUAGE_KEY "en",
       Action.sendMessage 1
         "Language switched to English. Bot messages and model outputs will follow this setting."] := by
    rfl
  constructor
  · rw [hacts]
    exact List.mem_cons_self _ _
  · intro m hm
    rw [hacts] at hm
    rcases List.mem_cons.1 hm with h' | h'
    · exact absurd h' (by simp)
    · rcases List.mem_cons.1 h' with h'' | h''
      · exact absurd h'' (by simp)
      · exact absurd h'' (by simp)

/-- C8: `/model` with an id absent from the catalog sends a rejection and
leaves the store untouched — no `setSelectedModel`, no Topic-State write, no
audit append — in both the part_003 handler and the part_004 model branch. -/
theorem C8_invalid_model (store : SessionStore) (catalog : List CopilotModelInfo)
    (cfg : AppConfig) (chatId : Int) (cmdText mid topic agent : String)
    (h1 : matchStart (trimStr cmdText) = false)
    (h2 : matchExactCI "/models" (trimStr cmdText) = false)
    (h3 : matchCmdArg "/model" isModelArgChar 64 (trimStr cmdText) = some mid)
    (hinv : ModelCatalog.findById catalog mid = none) :
    handleMessage3 store catalog cfg chatId cmdText =
      ([Action.sendMessage chatId
          ("未找到模型：" ++ mid ++ "。请先执行 /models 查看可用模型。")], store) ∧
    (handleModelCommand4 store catalog chatId topic agent mid).2 = store ∧
    (∀ a ∈ (handleModelCommand4 store catalog chatId topic agent mid).1,
      ∃ txt, a = Action.sendMessage chatId txt) := by
  have hparse := parse_model_eq (some cmdText) cfg
    (some (store.getCurrentProfile cfg.defaultTopic cfg chatId).1)
    (some (store.getCurrentProfile cfg.defaultTopic cfg chatId).2)
    (some (store.getSelectedModel cfg chatId
      (store.getCurrentProfile cfg.defaultTopic cfg chatId).1))
    mid h1 h2 h3
  refine ⟨?_, ?_, ?_⟩
  · simp only [handleMessage3]
    rw [hparse]
    dsimp only [baseParsed]
    rw [hinv]
  · simp only [handleModelCommand4]
    rw [hinv]
  · intro a ha
    simp only [handleModelCommand4] at ha
    rw [hinv] at ha
    simp only [sendChunksActions, List.mem_map] at ha
    obtain ⟨l, _, hl⟩ := ha
    exact ⟨String.mk l, hl.symm⟩

/-- C8 witness: `/model does-not-exist` against the default catalog. -/
theorem C8_witness :
    handleMessage3 emptyStore DEFAULT_MODELS cfg₀ 1 "/model does-not-exist" =
      ([Action.sendMessage 1
          ("未找到模型：does-not-exist。请先执行 /models 查看可用模型。")], emptyStore) ∧
    (handleModelCommand4 emptyStore DEFAULT_MODELS 1 "default" "default" "does-not-exist").2 =
      emptyStore := by
  have h := C8_invalid_model emptyStore DEFAULT_MODELS cfg₀ 1 "/model does-not-exist"
    "does-not-exist" "default" "default" (by decide) (by decide) (by decide) (by decide)
  exact ⟨h.1, h.2.1⟩

theorem askSplitOk (F S : List Action) (c r x : Action) (m : StoredMessage)
    (mid tp ag : String) (chatId : Int) (out : Except String String) (ans : String)
    (hout : out = Except.ok ans) :
    ∃ pre post midUsed,
      F ++ [Action.appendMsg m, c, r, Action.copilotGenerate mid tp ag, x] ++ S =
        pre ++ Action.copilotGenerate midUsed tp ag :: post ∧
      Action.appendMsg m ∈ pre ∧
      (∀ msg, out = Except.error msg →
        ∀ a ∈ post, ∃ txt, a = Action.sendMessage chatId txt) := by
  refine ⟨F ++ [Action.appendMsg m, c, r], x :: S, mid, by simp, by simp, ?_⟩
  intro msg hmsg
  rw [hout] at hmsg
  exact absurd hmsg (by simp)

theorem askSplitErr (F : List Action) (c r : Action) (m : StoredMessage)
    (mid tp ag : String) (chatId : Int) (emsg0 errText : String) :
    ∃ pre post midUsed,
      F ++ [Action.appendMsg m, c, r, Action.copilotGenerate mid tp ag] ++
          sendChunksActions chatId errText =
        pre ++ Action.copilotGenerate midUsed tp ag :: post ∧
      Action.appendMsg m ∈ pre ∧
      (∀ msg, (Except.error emsg0 : Except String String) = Except.error msg →
        ∀ a ∈ post, ∃ txt, a = Action.sendMessage chatId txt) := by
  refine ⟨F ++ [Action.appendMsg m, c, r], sendChunksActions chatId errText, mid,
    by simp, by simp, ?_⟩
  intro msg hmsg a ha
  simp only [sendChunksActions, List.mem_map] at ha
  obtain ⟨l, _, hl⟩ := ha
  exact ⟨String.mk l, hl.symm⟩

/-- C9: in the ask branch, once the completion pipeline is reached, the
inbound user-role message is appended to the store before the
completion-gateway call, and it remains recorded regardless of the
completion outcome: the final store always contains it, and on failure the
only actions after the gateway call are user-visible sends — no store
mutation follows.  (`papers`/`qaContext` abstract the `PaperManager`
collaborator whose source is not in the snapshot.) -/
theorem C9_ask_preserves_user_message (store : SessionStore)
    (catalog : List CopilotModelInfo) (cfg : AppConfig)
    (papers : String → Option PaperRecord) (qaContext : PaperRecord → String → String)
    (copilotEnabled : Bool) (copilotOutcome : Except String String)
    (chatId : Int) (topic agent modelId : String)
    (parsedQuestion parsedAskModelId : Option String)
    (pth : String) (paper : PaperRecord)
    (hpath : store.getTopicState chatId topic "active_paper_path" = some pth)
    (hpaper : papers pth = some paper)
    (hq : trimStr (parsedQuestion.getD "") ≠ "")
    (hask : (parsedAskModelId.map trimStr).getD "" = "" ∨
      ∃ mi, ModelCatalog.findById catalog ((parsedAskModelId.map trimStr).getD "") =
        some mi) :
    (⟨chatId, topic, Role.user, agent, trimStr (parsedQuestion.getD "")⟩ : StoredMessage) ∈
      (handleAskCommand4 store catalog cfg papers qaContext copilotEnabled copilotOutcome
        chatId topic agent modelId parsedQuestion parsedAskModelId).2.messages ∧
    (copilotEnabled = true →
      ∃ pre post midUsed,
        (handleAskCommand4 store catalog cfg papers qaContext copilotEnabled copilotOutcome
          chatId topic agent modelId parsedQuestion parsedAskModelId).1 =
            pre ++ Action.copilotGenerate midUsed topic agent :: post ∧
        Action.appendMsg
            ⟨chatId, topic, Role.user, agent, trimStr (parsedQuestion.getD "")⟩ ∈ pre ∧
        (∀ msg, copilotOutcome = Except.error msg →
          ∀ a ∈ post, ∃ txt, a = Action.sendMessage chatId txt)) := by
  have hrej : ¬((parsedAskModelId.map trimStr).getD "" ≠ "" ∧
      (ModelCatalog.findById catalog ((parsedAskModelId.map trimStr).getD "")).isNone =
        true) := by
    rcases hask with h | ⟨mi, hmi⟩
    · exact fun hc => hc.1 h
    · intro hc
      rw [hmi] at hc
      exact absurd hc.2 (by simp)
  simp only [handleAskCommand4]
  rw [hpath]
  dsimp only
  rw [hpaper]
  dsimp only
  rw [if_neg hq, if_neg hrej]
  constructor
  · cases copilotEnabled with
    | false =>
      rw [if_pos rfl]
      simp [SessionStore.append, SessionStore.setSelectedModel, SessionStore.setTopicState]
    | true =>
      rw [if_neg (by simp)]
      cases copilotOutcome with
      | ok answer =>
        simp [SessionStore.append, SessionStore.setSelectedModel,
          SessionStore.setTopicState]
      | error emsg =>
        simp [SessionStore.append, SessionStore.setSelectedModel,
          SessionStore.setTopicState]
  · intro hEn
    subst hEn
    rw [if_neg (by simp)]
    cases copilotOutcome with
    | ok answer => exact askSplitOk _ _ _ _ _ _ _ _ _ _ _ _ rfl
    | error emsg => exact askSplitErr _ _ _ _ _ _ _ _ _ _

/-- C9 witness: `/ask what?` with an active paper, enabled credentials and a
failing completion call. -/
theorem C9_witness :
    (⟨7, "default", Role.user, "default", "what?"⟩ : StoredMessage) ∈
      (handleAskCommand4 paperStore DEFAULT_MODELS cfg₀ papers₀ qaContext₀ true
        (Except.error "boom") 7 "default" "default" "gpt-4o" (some "what?") none).2.messages ∧
    (∃ pre post midUsed,
      (handleAskCommand4 paperStore DEFAULT_MODELS cfg₀ papers₀ qaContext₀ true
        (Except.error "boom") 7 "default" "default" "gpt-4o" (some "what?") none).1 =
          pre ++ Action.copilotGenerate midUsed "default" "default" :: post ∧
      Action.appendMsg (⟨7, "default", Role.user, "default", "what?"⟩ : StoredMessage) ∈ pre ∧
      (∀ msg, (Except.error "boom" : Except String String) = Except.error msg →
        ∀ a ∈ post, ∃ txt, a = Action.sendMessage 7 txt)) := by
  have h := C9_ask_preserves_user_message paperStore DEFAULT_MODELS cfg₀ papers₀
    qaContext₀ true (Except.error "boom") 7 "default" "default" "gpt-4o"
    (some "what?") none "p1" paper₀ (by decide) (by decide) (by decide)
    (Or.inl rfl)
  exact ⟨h.1, h.2 rfl⟩

end Spec2Proof
